import Mathlib

/-!
Verification of the train-tracking core of the IOT-Project repository
(`fastapi-backend/app`): geometry primitives (`utils.calculate_distance`,
`core/location.is_point_near_line`, `core/tracking.min_distance_point_to_line`),
route-progress functions (`core/location.find_nearest_checkpoint`,
`get_expected_location`, `verify_rfid_checkpoint`), deviation detection
(`core/tracking.detect_route_deviations`, `is_train_on_schedule`) and the
collision-risk assessor (`core/collision.check_collision_risk`,
`check_all_train_collisions`, `create_collision_alert`).

Modelling conventions:
- Coordinates are pairs `(longitude, latitude)` of real numbers, matching the
  `[lon, lat]` lists of the source; floating point is modelled by `ℝ`.
- Database reads (`LogModel.get_latest_by_train`, `RouteModel.get_by_route_id`,
  `TrainModel...`) are modelled by passing the fetched snapshot values as
  explicit arguments (`Option` for records that may be absent), and
  `get_expected_location` inside the collision scan is modelled by oracle
  functions from the lookahead offset (in minutes) to the optional projection.
- Timezone-aware `datetime` values are modelled by `Instant`: the instant in
  UTC seconds together with the `tzinfo` offset in minutes.
-/

/-- A geographic coordinate as stored by the repository: `(longitude, latitude)`. -/
abbrev GeoPoint : Type := ℝ × ℝ

/-- `config.DISTANCE_THRESHOLDS["COLLISION_CRITICAL"]` (meters). -/
def COLLISION_CRITICAL_DISTANCE : ℝ := 10

/-- `config.DISTANCE_THRESHOLDS["COLLISION_WARNING"]` (meters). -/
def COLLISION_WARNING_DISTANCE : ℝ := 15

/-- The lookahead offsets (minutes) of `check_collision_risk`. -/
def TIME_OFFSETS : List ℕ := [5, 10, 15, 30, 60]

/-- `config.SYSTEM_SENDER_ID` default value. -/
def SYSTEM_SENDER_ID : String := "680142a4f8db812a8b87617c"

/-- A timezone-aware Python `datetime`: the absolute instant (UTC seconds)
together with the attached `tzinfo` utc-offset in minutes. -/
structure Instant where
  utcSeconds : ℤ
  offsetMinutes : ℤ
  deriving DecidableEq, Repr

/-- `config.get_current_utc_time`: `datetime.now(timezone.utc)` — the current
instant with offset 0. The current time is passed in as `now`. -/
def get_current_utc_time (now : ℤ) : Instant := ⟨now, 0⟩

/-- `config.convert_to_ist`: `astimezone(IST)` keeps the instant and sets the
offset to +5:30 = 330 minutes. -/
def convert_to_ist (t : Instant) : Instant := ⟨t.utcSeconds, 330⟩

/-- `config.get_current_ist_time`: UTC now converted to IST. -/
def get_current_ist_time (now : ℤ) : Instant := convert_to_ist (get_current_utc_time now)

/-- `utils.calculate_distance`: haversine great-circle distance in meters
between two `(lon, lat)` points, Earth radius 6371000 m.  `math.radians x`
is `x * π / 180`; the source computes
`a = sin(dlat/2)^2 + cos(lat1) * cos(lat2) * sin(dlon/2)^2` and returns
`2 * asin(sqrt a) * 6371000`. -/
noncomputable def calculate_distance (coord1 coord2 : GeoPoint) : ℝ :=
  2 * Real.arcsin (Real.sqrt
      (Real.sin ((coord2.2 * Real.pi / 180 - coord1.2 * Real.pi / 180) / 2) ^ 2 +
        Real.cos (coord1.2 * Real.pi / 180) * Real.cos (coord2.2 * Real.pi / 180) *
          Real.sin ((coord2.1 * Real.pi / 180 - coord1.1 * Real.pi / 180) / 2) ^ 2))
    * 6371000

lemma calculate_distance_self (p : GeoPoint) : calculate_distance p p = 0 := by
  unfold calculate_distance
  simp

lemma calculate_distance_comm (a b : GeoPoint) :
    calculate_distance a b = calculate_distance b a := by
  unfold calculate_distance
  have h1 : ∀ x y : ℝ, Real.sin ((x - y) / 2) ^ 2 = Real.sin ((y - x) / 2) ^ 2 := by
    intro x y
    rw [show (x - y) / 2 = -((y - x) / 2) by ring, Real.sin_neg]
    ring
  rw [h1, h1 (b.1 * Real.pi / 180), mul_comm (Real.cos (a.2 * Real.pi / 180))]

lemma calculate_distance_nonneg (a b : GeoPoint) : 0 ≤ calculate_distance a b := by
  unfold calculate_distance
  have h1 : 0 ≤ Real.arcsin (Real.sqrt
      (Real.sin ((b.2 * Real.pi / 180 - a.2 * Real.pi / 180) / 2) ^ 2 +
        Real.cos (a.2 * Real.pi / 180) * Real.cos (b.2 * Real.pi / 180) *
          Real.sin ((b.1 * Real.pi / 180 - a.1 * Real.pi / 180) / 2) ^ 2)) :=
    Real.arcsin_nonneg.2 (Real.sqrt_nonneg _)
  linarith

/-- On the equator (latitude 0), the haversine distance between longitudes
`x ≤ y` with `y - x ≤ 180` is exactly `6371000 * ((y - x) * π / 180)`. -/
lemma calculate_distance_equator (x y : ℝ) (hxy : x ≤ y) (h180 : y - x ≤ 180) :
    calculate_distance (x, 0) (y, 0) = 6371000 * ((y - x) * Real.pi / 180) := by
  unfold calculate_distance
  have hθeq : (y * Real.pi / 180 - x * Real.pi / 180) / 2 = (y - x) * (Real.pi / 360) := by
    ring
  have hθ0 : 0 ≤ (y - x) * (Real.pi / 360) := by
    have := Real.pi_pos
    have : (0:ℝ) ≤ y - x := by linarith
    positivity
  have hθhalf : (y - x) * (Real.pi / 360) ≤ Real.pi / 2 := by
    have hπ := Real.pi_pos
    calc (y - x) * (Real.pi / 360) ≤ 180 * (Real.pi / 360) := by
          apply mul_le_mul_of_nonneg_right h180 (by positivity)
      _ = Real.pi / 2 := by ring
  have hsin0 : 0 ≤ Real.sin ((y - x) * (Real.pi / 360)) := by
    apply Real.sin_nonneg_of_nonneg_of_le_pi hθ0
    have := Real.pi_pos
    linarith
  simp only [mul_zero, zero_mul, zero_div, sub_zero, zero_sub, sub_self, Real.sin_zero,
    Real.cos_zero, one_mul, ne_eq]
  rw [hθeq]
  rw [show (0:ℝ) ^ 2 + Real.sin ((y - x) * (Real.pi / 360)) ^ 2 =
      Real.sin ((y - x) * (Real.pi / 360)) ^ 2 by ring]
  rw [Real.sqrt_sq hsin0]
  rw [Real.arcsin_sin (by linarith) hθhalf]
  ring

/-- On the equator with `180 ≤ y - x ≤ 360` the raw-degree haversine formula
wraps: it gives `6371000 * ((360 - (y - x)) * π / 180)`. -/
lemma calculate_distance_equator_far (x y : ℝ) (h180 : 180 ≤ y - x) (h360 : y - x ≤ 360) :
    calculate_distance (x, 0) (y, 0) = 6371000 * ((360 - (y - x)) * Real.pi / 180) := by
  unfold calculate_distance
  have hθeq : (y * Real.pi / 180 - x * Real.pi / 180) / 2 = (y - x) * (Real.pi / 360) := by
    ring
  have hπ := Real.pi_pos
  have hθlow : Real.pi / 2 ≤ (y - x) * (Real.pi / 360) := by
    calc Real.pi / 2 = 180 * (Real.pi / 360) := by ring
      _ ≤ (y - x) * (Real.pi / 360) := by
          apply mul_le_mul_of_nonneg_right h180 (by positivity)
  have hθhigh : (y - x) * (Real.pi / 360) ≤ Real.pi := by
    calc (y - x) * (Real.pi / 360) ≤ 360 * (Real.pi / 360) := by
          apply mul_le_mul_of_nonneg_right h360 (by positivity)
      _ = Real.pi := by ring
  have hsin0 : 0 ≤ Real.sin ((y - x) * (Real.pi / 360)) := by
    apply Real.sin_nonneg_of_nonneg_of_le_pi (by linarith) hθhigh
  simp only [mul_zero, zero_mul, zero_div, sub_zero, zero_sub, sub_self, Real.sin_zero,
    Real.cos_zero, one_mul, ne_eq]
  rw [hθeq]
  rw [show (0:ℝ) ^ 2 + Real.sin ((y - x) * (Real.pi / 360)) ^ 2 =
      Real.sin ((y - x) * (Real.pi / 360)) ^ 2 by ring]
  rw [Real.sqrt_sq hsin0]
  rw [show Real.sin ((y - x) * (Real.pi / 360)) =
      Real.sin (Real.pi - (y - x) * (Real.pi / 360)) by rw [Real.sin_pi_sub]]
  rw [Real.arcsin_sin (by linarith) (by linarith)]
  ring

/-- The parametric projection coefficient shared verbatim by
`location.is_point_near_line` and `tracking.min_distance_point_to_line`:
`t = ((p.x - s.x)*(e.x - s.x) + (p.y - s.y)*(e.y - s.y)) / d(s,e)^2`
(a raw degree-space dot product divided by a squared metric distance,
exactly as in the source). -/
noncomputable def seg_t (point line_start line_end : GeoPoint) : ℝ :=
  ((point.1 - line_start.1) * (line_end.1 - line_start.1) +
    (point.2 - line_start.2) * (line_end.2 - line_start.2)) /
    (calculate_distance line_start line_end ^ 2)

/-- The closest point `line_start + t * (line_end - line_start)` computed by
both segment functions when `t ∈ [0, 1]`. -/
noncomputable def closest_point_on_segment (point line_start line_end : GeoPoint) : GeoPoint :=
  (line_start.1 + seg_t point line_start line_end * (line_end.1 - line_start.1),
   line_start.2 + seg_t point line_start line_end * (line_end.2 - line_start.2))

/-- `tracking.min_distance_point_to_line`: minimum distance from a point to a
line segment, degrading to the distance to `line_start` for segments shorter
than 1 meter, and to an endpoint distance when the projection parameter falls
outside `[0, 1]`. -/
noncomputable def min_distance_point_to_line (point line_start line_end : GeoPoint) : ℝ :=
  if calculate_distance line_start line_end < 1 then
    calculate_distance point line_start
  else if seg_t point line_start line_end < 0 then
    calculate_distance point line_start
  else if seg_t point line_start line_end > 1 then
    calculate_distance point line_end
  else
    calculate_distance point (closest_point_on_segment point line_start line_end)

open Classical in
/-- `location.is_point_near_line`: whether a point is within `max_distance`
meters of a segment.  The source first returns `True` if either endpoint is
within `max_distance`, then handles short segments, then the projection. -/
noncomputable def is_point_near_line (point line_start line_end : GeoPoint)
    (max_distance : ℝ) : Bool :=
  if calculate_distance point line_start ≤ max_distance ∨
      calculate_distance point line_end ≤ max_distance then
    true
  else if calculate_distance line_start line_end < 1 then
    decide (calculate_distance point line_start ≤ max_distance)
  else if seg_t point line_start line_end < 0 then
    decide (calculate_distance point line_start ≤ max_distance)
  else if seg_t point line_start line_end > 1 then
    decide (calculate_distance point line_end ≤ max_distance)
  else
    decide (calculate_distance point (closest_point_on_segment point line_start line_end)
      ≤ max_distance)

/-- `min_distance_point_to_line ≤ m` always implies `is_point_near_line = true`:
the two functions share the short-segment test and the projection coefficient,
and the extra endpoint fast-path of `is_point_near_line` can only add `true`
answers. -/
lemma is_point_near_line_of_min_distance_le (p ls le_ : GeoPoint) (m : ℝ)
    (h : min_distance_point_to_line p ls le_ ≤ m) :
    is_point_near_line p ls le_ m = true := by
  unfold min_distance_point_to_line at h
  unfold is_point_near_line
  by_cases h1 : calculate_distance p ls ≤ m ∨ calculate_distance p le_ ≤ m
  · rw [if_pos h1]
  · rw [if_neg h1]
    by_cases h2 : calculate_distance ls le_ < 1
    · rw [if_pos h2] at h ⊢
      simpa using h
    · rw [if_neg h2] at h ⊢
      by_cases h3 : seg_t p ls le_ < 0
      · rw [if_pos h3] at h ⊢
        simpa using h
      · rw [if_neg h3] at h ⊢
        by_cases h4 : seg_t p ls le_ > 1
        · rw [if_pos h4] at h ⊢
          simpa using h
        · rw [if_neg h4] at h ⊢
          simpa using h

/-- Conversely, `is_point_near_line = true` means the minimum segment distance
is within `m` or one of the endpoints is within `m` (the fast-path). -/
lemma min_distance_le_or_endpoint_of_is_point_near_line (p ls le_ : GeoPoint) (m : ℝ)
    (h : is_point_near_line p ls le_ m = true) :
    calculate_distance p ls ≤ m ∨ calculate_distance p le_ ≤ m ∨
      min_distance_point_to_line p ls le_ ≤ m := by
  unfold is_point_near_line at h
  unfold min_distance_point_to_line
  by_cases h1 : calculate_distance p ls ≤ m ∨ calculate_distance p le_ ≤ m
  · rcases h1 with h1 | h1
    · exact Or.inl h1
    · exact Or.inr (Or.inl h1)
  · rw [if_neg h1] at h
    refine Or.inr (Or.inr ?_)
    by_cases h2 : calculate_distance ls le_ < 1
    · rw [if_pos h2] at h ⊢
      simpa using h
    · rw [if_neg h2] at h ⊢
      by_cases h3 : seg_t p ls le_ < 0
      · rw [if_pos h3] at h ⊢
        simpa using h
      · rw [if_neg h3] at h ⊢
        by_cases h4 : seg_t p ls le_ > 1
        · rw [if_pos h4] at h ⊢
          simpa using h
        · rw [if_neg h4] at h ⊢
          simpa using h

/-- A route checkpoint (`§3` of the route documents): coordinates, seconds
offset from route start, optional RFID tag.  The source tolerates checkpoints
without a `location` key; the data model guarantees coordinates, so the field
is total here. -/
structure RouteCheckpoint where
  location : GeoPoint
  interval : ℝ
  rfid_tag : Option String

noncomputable instance : Inhabited RouteCheckpoint := ⟨⟨(0, 0), 0, none⟩⟩

open Classical in
/-- The running minimum of `location.find_nearest_checkpoint`: `best`/`bestIdx`
are `nearest_checkpoint`/`nearest_index`, `bestDist` is `min_distance`
(`none` standing for the initial `float('inf')`, which every first real
distance beats). -/
noncomputable def find_nearest_go (location : GeoPoint) :
    List (ℕ × RouteCheckpoint) → Option RouteCheckpoint → ℤ → Option ℝ →
      Option RouteCheckpoint × ℤ
  | [], best, bestIdx, _ => (best, bestIdx)
  | (i, cp) :: rest, best, bestIdx, bestDist =>
    let d := calculate_distance location cp.location
    if (match bestDist with
        | none => True
        | some b => d < b) then
      find_nearest_go location rest (some cp) (i : ℤ) (some d)
    else
      find_nearest_go location rest best bestIdx bestDist

/-- `location.find_nearest_checkpoint`: linear scan keeping the strictly
smaller distance, returning `(None, -1)` for an empty checkpoint list. -/
noncomputable def find_nearest_checkpoint (location : GeoPoint)
    (checkpoints : List RouteCheckpoint) : Option RouteCheckpoint × ℤ :=
  find_nearest_go location checkpoints.enum none (-1) none

/-- `round(x, 5)` of the source, modelled as rounding half-up to 5 decimal
places (Python's float rounding is half-to-even; the two agree except on
exact midpoints, which no claim exercises). -/
noncomputable def round5 (x : ℝ) : ℝ := (round (x * 100000) : ℤ) / 100000

/-- `utils.round_coordinates` applied to a `[lon, lat]` list: the source
unpacks `lon, lat = lat` and returns the tuple
`(round(lat, precision), round(lon, precision))` — latitude first, i.e. the
coordinate order is reversed relative to the stored `[lon, lat]` lists. -/
noncomputable def round_coordinates (p : GeoPoint) : GeoPoint :=
  (round5 p.2, round5 p.1)

/-- `location.get_expected_location`, with the database reads supplied as
arguments: `route` is the checkpoint list of the train's current route
(`none` when the train or route is missing), `latest_log` is the latest
log's `(location, timestamp)` (`none` when absent), `current_time` the query
time; timestamps are in seconds. -/
noncomputable def get_expected_location (route : Option (List RouteCheckpoint))
    (latest_log : Option (GeoPoint × ℝ)) (current_time : ℝ) : Option GeoPoint :=
  match route with
  | none => none
  | some checkpoints =>
    if checkpoints.length < 2 then none
    else
      match latest_log with
      | none => none
      | some (log_location, log_time) =>
        let elapsed_seconds := current_time - log_time
        match find_nearest_checkpoint log_location checkpoints with
        | (none, _) => none
        | (some _, checkpoint_idx) =>
          if checkpoint_idx = -1 then none
          else
            let i := checkpoint_idx.toNat
            if checkpoints.length - 1 ≤ i then
              some (checkpoints.getD (checkpoints.length - 1) default).location
            else
              let current_checkpoint := checkpoints.getD i default
              let next_checkpoint := checkpoints.getD (i + 1) default
              let time_between_checkpoints :=
                next_checkpoint.interval - current_checkpoint.interval
              if time_between_checkpoints ≤ 0 then
                some current_checkpoint.location
              else
                let progress_ratio := min 1 (elapsed_seconds / time_between_checkpoints)
                some (round_coordinates
                  (current_checkpoint.location.1 +
                     progress_ratio * (next_checkpoint.location.1 - current_checkpoint.location.1),
                   current_checkpoint.location.2 +
                     progress_ratio * (next_checkpoint.location.2 - current_checkpoint.location.2)))

/-- `location.verify_rfid_checkpoint`: match the detected tag against the
expected next checkpoint (`last_checkpoint_idx + 1`) and, failing that, the
following two checkpoints (`range(expected_idx + 1, min(expected_idx + 3,
len))`).  Indices at or below `-1` for `expected_idx` (Python negative
indexing) are outside the modelled domain. -/
noncomputable def verify_rfid_checkpoint (rfid_tag : String)
    (route : Option (List RouteCheckpoint)) (last_checkpoint_idx : ℤ) :
    Option RouteCheckpoint :=
  match route with
  | none => none
  | some checkpoints =>
    if checkpoints.isEmpty then none
    else
      let expected_idx := last_checkpoint_idx + 1
      if (checkpoints.length : ℤ) ≤ expected_idx then none
      else
        let e := expected_idx.toNat
        let expected_checkpoint := checkpoints.getD e default
        if expected_checkpoint.rfid_tag == some rfid_tag then
          some expected_checkpoint
        else
          match (List.range' (e + 1) (min (e + 3) checkpoints.length - (e + 1))).find?
              (fun i => (checkpoints.getD i default).rfid_tag == some rfid_tag) with
          | some i => some (checkpoints.getD i default)
          | none => none

open Classical in
/-- The severity classification written at the end of
`tracking.detect_route_deviations` (lines 383-388):
`min_distance > 3*threshold → "critical"`, `> 2*threshold → "high"`,
otherwise `"moderate"`.  In the source these lines are unreachable: the
function raises `NameError` earlier (see `detect_route_deviations` below). -/
noncomputable def classify_severity (min_distance distance_threshold : ℝ) : String :=
  if min_distance > 3 * distance_threshold then "critical"
  else if min_distance > 2 * distance_threshold then "high"
  else "moderate"

/-- Numeric rank of a deviation severity string, for stating monotonicity. -/
def severity_rank (s : String) : ℕ :=
  if s = "critical" then 2 else if s = "high" then 1 else 0

open Classical in
/-- The minimum-distance computation written in
`tracking.detect_route_deviations` (lines 342-377, unreachable in the source,
see `detect_route_deviations` below): distance to the active segment
`[cp_idx, cp_idx+1]`, also minimized with the previous segment when
`cp_idx > 0` and the next segment when `cp_idx + 2 < len`. -/
noncomputable def min_distance_to_route (point : GeoPoint)
    (checkpoints : List RouteCheckpoint) (cp_idx : ℕ) : ℝ :=
  let segment_start := (checkpoints.getD cp_idx default).location
  let segment_end := (checkpoints.getD (cp_idx + 1) default).location
  let d_active := min_distance_point_to_line point segment_start segment_end
  let d_with_prev :=
    if 0 < cp_idx then
      min d_active (min_distance_point_to_line point
        (checkpoints.getD (cp_idx - 1) default).location segment_start)
    else d_active
  if cp_idx + 2 < checkpoints.length then
    min d_with_prev (min_distance_point_to_line point segment_end
      (checkpoints.getD (cp_idx + 2) default).location)
  else d_with_prev

/-- The result dictionary of `tracking.detect_route_deviations`. -/
structure DeviationResult where
  train_id : String
  deviation_detected : Bool
  distance_from_route : Option ℝ
  location : Option GeoPoint
  timestamp : Instant
  nearest_checkpoint : Option RouteCheckpoint
  expected_segment : Option (ℕ × ℕ)
  severity : String

open Classical in
/-- `tracking.detect_route_deviations`, with the database state passed in:
`current_route_id` is the train's assigned route id (`none` when the train is
missing or unassigned), `latest_log` the latest log location, `route` the
route's checkpoint list (`none` when the route document is missing).

`tracking.py` imports only `find_nearest_checkpoint` and
`verify_rfid_checkpoint` from `app.core.location` (line 12) and never binds
`is_point_near_line`, so the call at line 331 raises `NameError` whenever it
is reached; the raise is modelled by `Except.error`, and everything the
source writes after line 331 (the near-segment test, the minimum-distance
computation and the severity classification) is unreachable. -/
noncomputable def detect_route_deviations (train_id : String)
    (current_route_id : Option String) (latest_log : Option GeoPoint)
    (route : Option (List RouteCheckpoint)) (distance_threshold : ℝ) (now : ℤ) :
    Except String DeviationResult :=
  let base : DeviationResult :=
    ⟨train_id, false, none, none, get_current_ist_time now, none, none, "none"⟩
  match current_route_id with
  | none => Except.ok base
  | some _ =>
    match latest_log with
    | none => Except.ok base
    | some log_location =>
      match route with
      | none => Except.ok base
      | some checkpoints =>
        if checkpoints.length < 2 then Except.ok base
        else
          match find_nearest_checkpoint log_location checkpoints with
          | (nearest_cp, cp_idx) =>
            let r1 := { base with nearest_checkpoint := nearest_cp }
            if cp_idx = -1 then Except.ok r1
            else
              let i := cp_idx.toNat
              if i = checkpoints.length - 1 then Except.ok r1
              else
                Except.error "NameError: name 'is_point_near_line' is not defined"

open Classical in
/-- The scan `for i, cp in enumerate(checkpoints): if elapsed < cp.interval:
... break` of `tracking.is_train_on_schedule`: index of the first checkpoint
whose interval exceeds the elapsed time. -/
noncomputable def first_exceed_idx (elapsed : ℝ) : List RouteCheckpoint → Option ℕ
  | [] => none
  | cp :: rest =>
    if elapsed < cp.interval then some 0
    else (first_exceed_idx elapsed rest).map (· + 1)

/-- The expected-checkpoint computation of `tracking.is_train_on_schedule`
(lines 108-122): the checkpoint before the first one whose interval exceeds
`elapsed`; if no checkpoint's interval exceeds `elapsed` — or the first one
already does, leaving `expected_cp` unset — fall back to the last checkpoint
of a nonempty list. -/
noncomputable def expected_checkpoint_idx (checkpoints : List RouteCheckpoint)
    (elapsed : ℝ) : Option ℕ :=
  match first_exceed_idx elapsed checkpoints with
  | some i =>
    if 0 < i then some (i - 1)
    else if checkpoints.isEmpty then none else some (checkpoints.length - 1)
  | none => if checkpoints.isEmpty then none else some (checkpoints.length - 1)

/-- The delay loop of `tracking.is_train_on_schedule` (lines 133-135):
`for i in range(actual+1, expected+1): delay += interval[i] - interval[i-1]`. -/
noncomputable def delay_sum (checkpoints : List RouteCheckpoint)
    (actual expected : ℕ) : ℝ :=
  ((List.range' (actual + 1) (expected - actual)).map
    (fun i => (checkpoints.getD i default).interval -
      (checkpoints.getD (i - 1) default).interval)).sum

open Classical in
/-- The schedule comparison of `tracking.is_train_on_schedule` (lines
126-143), given the expected checkpoint and the actual nearest-checkpoint
index; returns `(delay_seconds, on_schedule)`.  The guards resolving the
train, route, start time and position (lines 91-106) are modelled by the
caller supplying `checkpoints`, `elapsed` and `actual_idx`; `actual_idx` is
`-1`-free in the claims (a valid position with a nonempty checkpoint list
always yields a nonnegative nearest index). -/
noncomputable def is_train_on_schedule_core (checkpoints : List RouteCheckpoint)
    (elapsed : ℝ) (actual_idx : ℤ) (tolerance_seconds : ℝ) : Option ℝ × Bool :=
  match expected_checkpoint_idx checkpoints elapsed with
  | none => (none, false)
  | some expected =>
    if actual_idx < (expected : ℤ) then
      let delay := delay_sum checkpoints actual_idx.toNat expected
      (some delay, decide (delay ≤ tolerance_seconds))
    else
      (some 0, true)

/-- The result dictionary of `collision.check_collision_risk`. -/
structure CollisionResult where
  train1_id : String
  train2_id : String
  collision_risk : String
  distance : Option ℝ
  estimated_time_to_collision : Option ℕ
  location : Option GeoPoint
  timestamp : Instant

/-- The midpoint `[(a[0]+b[0])/2, (a[1]+b[1])/2]` used by
`check_collision_risk` for the reported location. -/
noncomputable def midpoint_location (a b : GeoPoint) : GeoPoint :=
  ((a.1 + b.1) / 2, (a.2 + b.2) / 2)

open Classical in
/-- The future-projection loop of `collision.check_collision_risk` (lines
69-91): for each lookahead offset in order, query both projections
(`expected_loc1`/`expected_loc2` model `get_expected_location` at
`now + offset` minutes), skip the offset if either is unavailable, and on the
first projected distance within the critical threshold overwrite the risk,
the estimated time (seconds) and the location, then stop. -/
noncomputable def scan_time_offsets (expected_loc1 expected_loc2 : ℕ → Option GeoPoint) :
    List ℕ → CollisionResult → CollisionResult
  | [], result => result
  | minutes :: rest, result =>
    match expected_loc1 minutes, expected_loc2 minutes with
    | some e1, some e2 =>
      if calculate_distance e1 e2 ≤ COLLISION_CRITICAL_DISTANCE then
        { result with
          collision_risk := "predicted"
          estimated_time_to_collision := some (minutes * 60)
          location := some (midpoint_location e1 e2) }
      else scan_time_offsets expected_loc1 expected_loc2 rest result
    | _, _ => scan_time_offsets expected_loc1 expected_loc2 rest result

open Classical in
/-- `collision.check_collision_risk`, with the database reads passed in:
`latest_log1`/`latest_log2` are the latest log locations of the two trains
(`none` when the log or its location is missing) and
`expected_loc1`/`expected_loc2` the `get_expected_location` projections per
lookahead offset in minutes. -/
noncomputable def check_collision_risk (train_id1 train_id2 : String)
    (latest_log1 latest_log2 : Option GeoPoint)
    (expected_loc1 expected_loc2 : ℕ → Option GeoPoint) (now : ℤ) : CollisionResult :=
  let result : CollisionResult :=
    ⟨train_id1, train_id2, "none", none, none, none, get_current_ist_time now⟩
  match latest_log1, latest_log2 with
  | some loc1, some loc2 =>
    let current_distance := calculate_distance loc1 loc2
    let r := { result with distance := some current_distance }
    if current_distance ≤ COLLISION_CRITICAL_DISTANCE then
      { r with
        collision_risk := "critical"
        location := some (midpoint_location loc1 loc2) }
    else if current_distance ≤ COLLISION_WARNING_DISTANCE then
      scan_time_offsets expected_loc1 expected_loc2 TIME_OFFSETS
        { r with
          collision_risk := "warning"
          location := some (midpoint_location loc1 loc2) }
    else
      scan_time_offsets expected_loc1 expected_loc2 TIME_OFFSETS r
  | _, _ => result

/-- The pair enumeration of `collision.check_all_train_collisions`:
`for i in range(n): for j in range(i+1, n)` over the active-train list —
each head paired with every later element, then recurse on the tail. -/
def train_pairs {α : Type} : List α → List (α × α)
  | [] => []
  | x :: xs => (xs.map (fun y => (x, y))) ++ train_pairs xs

/-- `collision.check_all_train_collisions`, with the active-train ids and the
per-pair assessment (`check_collision_risk`, a database-dependent collaborator
here abstracted as `risk`) passed in: evaluate every pair `i < j` in loop
order and keep the assessments whose risk is not `"none"`. -/
def check_all_train_collisions (active_trains : List String)
    (risk : String → String → CollisionResult) : List CollisionResult :=
  (train_pairs active_trains).filterMap (fun p =>
    let r := risk p.1 p.2
    if r.collision_risk ≠ "none" then some r else none)

/-- An alert document as assembled by `collision.create_collision_alert`. -/
structure AlertData where
  sender_ref : String
  recipient_ref : String
  message : String
  location : Option GeoPoint
  timestamp : Instant

/-- `collision.create_collision_alert`: one alert per involved train, both
carrying `get_current_ist_time()` as timestamp.  The numeric fragments of the
message (rounded distance / minutes) are abstracted to the ids. -/
def create_collision_alert (collision_risk : CollisionResult)
    (train1_ref train2_ref : String) (now : ℤ) : AlertData × AlertData :=
  let message :=
    if collision_risk.collision_risk = "critical" then
      "CRITICAL: Imminent collision risk between trains " ++
        collision_risk.train1_id ++ " and " ++ collision_risk.train2_id ++ "."
    else
      "WARNING: Potential collision between trains " ++
        collision_risk.train1_id ++ " and " ++ collision_risk.train2_id ++ "."
  (⟨SYSTEM_SENDER_ID, train1_ref, message, collision_risk.location,
      get_current_ist_time now⟩,
   ⟨SYSTEM_SENDER_ID, train2_ref, message, collision_risk.location,
      get_current_ist_time now⟩)

/-- Claim C7: `calculate_distance` (the haversine great-circle distance in
meters with Earth radius 6371000 m) is zero on identical points and symmetric
in its two arguments. -/
theorem claim_C7_distance_zero_self_and_symmetric :
    (∀ p : GeoPoint, calculate_distance p p = 0) ∧
    (∀ a b : GeoPoint, calculate_distance a b = calculate_distance b a) :=
  ⟨calculate_distance_self, calculate_distance_comm⟩

/-- One meter-per-degree on the equator: `6371000 * π / 180` is large. -/
lemma equator_degree_large : (106183 : ℝ) ≤ 6371000 * Real.pi / 180 := by
  have h3 := Real.pi_gt_three
  nlinarith

/-- Claim C3 as stated is false: with `p = (300°, 0°)`, the segment from
`(0°, 0°)` to `(1°, 0°)` and threshold `m = distance(p, segStart)` (a
nonnegative threshold), `is_point_near_line` answers `true` via its endpoint
fast-path while `min_distance_point_to_line` exceeds `m`: the projection
coefficient `t` is small and positive, and on the 300°-separation side of the
haversine's raw-degree wraparound moving from the start toward the end
strictly increases the computed distance. -/
theorem claim_C3_counterexample :
    0 ≤ calculate_distance ((300 : ℝ), (0 : ℝ)) ((0 : ℝ), (0 : ℝ)) ∧
    is_point_near_line ((300 : ℝ), (0 : ℝ)) ((0 : ℝ), (0 : ℝ)) ((1 : ℝ), (0 : ℝ))
      (calculate_distance ((300 : ℝ), (0 : ℝ)) ((0 : ℝ), (0 : ℝ))) = true ∧
    ¬ (min_distance_point_to_line ((300 : ℝ), (0 : ℝ)) ((0 : ℝ), (0 : ℝ)) ((1 : ℝ), (0 : ℝ)) ≤
        calculate_distance ((300 : ℝ), (0 : ℝ)) ((0 : ℝ), (0 : ℝ))) := by
  have hπ := Real.pi_pos
  have hbig := equator_degree_large
  -- the threshold: distance from p to the segment start
  have hm : calculate_distance ((300 : ℝ), (0 : ℝ)) ((0 : ℝ), (0 : ℝ)) =
      6371000 * (60 * Real.pi / 180) := by
    rw [calculate_distance_comm]
    have := calculate_distance_equator_far 0 300 (by norm_num) (by norm_num)
    rw [this]
    norm_num
  -- the segment length
  have hse : calculate_distance ((0 : ℝ), (0 : ℝ)) ((1 : ℝ), (0 : ℝ)) =
      6371000 * (1 * Real.pi / 180) := by
    have := calculate_distance_equator 0 1 (by norm_num) (by norm_num)
    rw [this]
    norm_num
  have hse_ge : (106183 : ℝ) ≤ calculate_distance ((0 : ℝ), (0 : ℝ)) ((1 : ℝ), (0 : ℝ)) := by
    rw [hse]
    calc (106183 : ℝ) ≤ 6371000 * Real.pi / 180 := hbig
      _ = 6371000 * (1 * Real.pi / 180) := by ring
  -- the projection coefficient
  have ht_eq : seg_t ((300 : ℝ), (0 : ℝ)) ((0 : ℝ), (0 : ℝ)) ((1 : ℝ), (0 : ℝ)) =
      300 / calculate_distance ((0 : ℝ), (0 : ℝ)) ((1 : ℝ), (0 : ℝ)) ^ 2 := by
    unfold seg_t
    norm_num
  have hden_pos : (0 : ℝ) < calculate_distance ((0 : ℝ), (0 : ℝ)) ((1 : ℝ), (0 : ℝ)) ^ 2 := by
    nlinarith
  have ht_pos : 0 < seg_t ((300 : ℝ), (0 : ℝ)) ((0 : ℝ), (0 : ℝ)) ((1 : ℝ), (0 : ℝ)) := by
    rw [ht_eq]
    positivity
  have ht_le : seg_t ((300 : ℝ), (0 : ℝ)) ((0 : ℝ), (0 : ℝ)) ((1 : ℝ), (0 : ℝ)) ≤ 1 := by
    rw [ht_eq]
    rw [div_le_one hden_pos]
    nlinarith
  set t := seg_t ((300 : ℝ), (0 : ℝ)) ((0 : ℝ), (0 : ℝ)) ((1 : ℝ), (0 : ℝ)) with ht_def
  -- the closest point is (t, 0)
  have hclosest : closest_point_on_segment ((300 : ℝ), (0 : ℝ)) ((0 : ℝ), (0 : ℝ))
      ((1 : ℝ), (0 : ℝ)) = ((t : ℝ), (0 : ℝ)) := by
    unfold closest_point_on_segment
    rw [← ht_def]
    norm_num
  -- the distance from p to the closest point strictly exceeds the threshold
  have hfar : calculate_distance ((300 : ℝ), (0 : ℝ)) ((t : ℝ), (0 : ℝ)) =
      6371000 * ((60 + t) * Real.pi / 180) := by
    rw [calculate_distance_comm]
    have := calculate_distance_equator_far t 300 (by linarith) (by linarith)
    rw [this]
    ring_nf
  have hgt : calculate_distance ((300 : ℝ), (0 : ℝ)) ((0 : ℝ), (0 : ℝ)) <
      calculate_distance ((300 : ℝ), (0 : ℝ)) ((t : ℝ), (0 : ℝ)) := by
    rw [hm, hfar]
    nlinarith
  refine ⟨calculate_distance_nonneg _ _, ?_, ?_⟩
  · unfold is_point_near_line
    rw [if_pos (Or.inl le_rfl)]
  · unfold min_distance_point_to_line
    rw [if_neg (by linarith : ¬ calculate_distance ((0 : ℝ), (0 : ℝ)) ((1 : ℝ), (0 : ℝ)) < 1)]
    rw [if_neg (by rw [← ht_def]; linarith : ¬ seg_t ((300 : ℝ), (0 : ℝ)) ((0 : ℝ), (0 : ℝ)) ((1 : ℝ), (0 : ℝ)) < 0)]
    rw [if_neg (by rw [← ht_def]; linarith : ¬ seg_t ((300 : ℝ), (0 : ℝ)) ((0 : ℝ), (0 : ℝ)) ((1 : ℝ), (0 : ℝ)) > 1)]
    rw [hclosest]
    linarith

/-- Claim C3 (amended): for every point, segment and threshold `m ≥ 0`,
`pointToSegmentDistance ≤ m` implies `isNearSegment = true`, and
`isNearSegment = true` implies that the segment distance is within `m` OR one
of the two endpoints is within `m` (the endpoint fast-path of
`is_point_near_line`, which `min_distance_point_to_line` does not share, can
answer `true` with a larger segment distance). -/
theorem claim_C3_amended (p ls lend : GeoPoint) (m : ℝ) (hm : 0 ≤ m) :
    (min_distance_point_to_line p ls lend ≤ m → is_point_near_line p ls lend m = true) ∧
    (is_point_near_line p ls lend m = true →
      calculate_distance p ls ≤ m ∨ calculate_distance p lend ≤ m ∨
        min_distance_point_to_line p ls lend ≤ m) :=
  ⟨is_point_near_line_of_min_distance_le p ls lend m,
   min_distance_le_or_endpoint_of_is_point_near_line p ls lend m⟩

/-- Witness for the amended claim C3 at a concrete input: the degenerate
segment at the origin with threshold 0. -/
theorem claim_C3_amended_witness :
    (0 : ℝ) ≤ 0 ∧
    is_point_near_line ((0 : ℝ), (0 : ℝ)) ((0 : ℝ), (0 : ℝ)) ((0 : ℝ), (0 : ℝ)) 0 = true := by
  refine ⟨le_rfl, ?_⟩
  apply (claim_C3_amended ((0 : ℝ), (0 : ℝ)) ((0 : ℝ), (0 : ℝ)) ((0 : ℝ), (0 : ℝ)) 0 le_rfl).1
  unfold min_distance_point_to_line
  rw [if_pos]
  · rw [calculate_distance_self]
  · rw [calculate_distance_self]
    norm_num

/-- Unfolding of `verify_rfid_checkpoint` to its forward scan once the
expected next checkpoint is in range but its tag does not match. -/
lemma verify_rfid_scan_eq (tag : String) (cps : List RouteCheckpoint) (last : ℤ)
    (hlast : -1 ≤ last) (hlt : last + 1 < (cps.length : ℤ))
    (hne1 : (cps.getD (last + 1).toNat default).rfid_tag ≠ some tag) :
    verify_rfid_checkpoint tag (some cps) last =
      match (List.range' ((last + 1).toNat + 1)
          (min ((last + 1).toNat + 3) cps.length - ((last + 1).toNat + 1))).find?
          (fun i => (cps.getD i default).rfid_tag == some tag) with
      | some i => some (cps.getD i default)
      | none => none := by
  have hemp : cps.isEmpty = false := by
    cases cps with
    | nil => simp at hlt; omega
    | cons a l => rfl
  have hnotle : ¬ ((cps.length : ℤ) ≤ last + 1) := not_le.2 hlt
  have hb1 : ((cps.getD (last + 1).toNat default).rfid_tag == some tag) = false :=
    beq_eq_false_iff_ne.mpr hne1
  unfold verify_rfid_checkpoint
  simp only [hemp, Bool.false_eq_true, if_false, hnotle, hb1]

/-- Claim C9: `verify_rfid_checkpoint` confirms checkpoint
`lastConfirmedIndex + 1` on a direct tag match, otherwise confirms the first
match among the at most two further checkpoints `lastConfirmedIndex + 2` and
`lastConfirmedIndex + 3` (within route bounds), and returns `none` when no
scanned checkpoint matches or the expected next index is past the end. -/
theorem claim_C9_verify_rfid (tag : String) (cps : List RouteCheckpoint) (last : ℤ)
    (hlast : -1 ≤ last) :
    ((cps.length : ℤ) ≤ last + 1 → verify_rfid_checkpoint tag (some cps) last = none) ∧
    (last + 1 < (cps.length : ℤ) →
      ((cps.getD (last + 1).toNat default).rfid_tag = some tag →
        verify_rfid_checkpoint tag (some cps) last =
          some (cps.getD (last + 1).toNat default)) ∧
      ((cps.getD (last + 1).toNat default).rfid_tag ≠ some tag →
        ((last + 1).toNat + 1 < cps.length →
          (cps.getD ((last + 1).toNat + 1) default).rfid_tag = some tag →
          verify_rfid_checkpoint tag (some cps) last =
            some (cps.getD ((last + 1).toNat + 1) default)) ∧
        ((last + 1).toNat + 1 < cps.length →
          (cps.getD ((last + 1).toNat + 1) default).rfid_tag ≠ some tag →
          (last + 1).toNat + 2 < cps.length →
          (cps.getD ((last + 1).toNat + 2) default).rfid_tag = some tag →
          verify_rfid_checkpoint tag (some cps) last =
            some (cps.getD ((last + 1).toNat + 2) default)) ∧
        ((∀ i, (last + 1).toNat < i → i < min ((last + 1).toNat + 3) cps.length →
            (cps.getD i default).rfid_tag ≠ some tag) →
          verify_rfid_checkpoint tag (some cps) last = none))) := by
  refine ⟨?_, fun hlt => ⟨?_, fun hne1 => ⟨?_, ?_, ?_⟩⟩⟩
  · intro hlen
    unfold verify_rfid_checkpoint
    by_cases hemp : cps.isEmpty
    · simp [hemp]
    · simp [hemp, hlen]
  · intro hmatch
    have hemp : cps.isEmpty = false := by
      cases cps with
      | nil => simp at hlt; omega
      | cons a l => rfl
    have hnotle : ¬ ((cps.length : ℤ) ≤ last + 1) := not_le.2 hlt
    have hb1 : ((cps.getD (last + 1).toNat default).rfid_tag == some tag) = true :=
      beq_iff_eq.mpr hmatch
    unfold verify_rfid_checkpoint
    simp only [hemp, Bool.false_eq_true, if_false, hnotle, hb1, if_true]
  · intro h1lt hmatch1
    rw [verify_rfid_scan_eq tag cps last hlast hlt hne1]
    have hb2 : ((cps.getD ((last + 1).toNat + 1) default).rfid_tag == some tag) = true :=
      beq_iff_eq.mpr hmatch1
    rcases Nat.lt_or_ge ((last + 1).toNat + 2) cps.length with h2 | h2
    · have hk : min ((last + 1).toNat + 3) cps.length - ((last + 1).toNat + 1) = 2 := by
        omega
      rw [hk]
      have hr : List.range' ((last + 1).toNat + 1) 2 =
          [(last + 1).toNat + 1, (last + 1).toNat + 2] := rfl
      rw [hr]
      simp only [List.getD_eq_getElem?_getD] at hb2 ⊢
      simp only [List.find?]
      rw [hb2]
    · have hk : min ((last + 1).toNat + 3) cps.length - ((last + 1).toNat + 1) = 1 := by
        omega
      rw [hk]
      have hr : List.range' ((last + 1).toNat + 1) 1 = [(last + 1).toNat + 1] := rfl
      rw [hr]
      simp only [List.getD_eq_getElem?_getD] at hb2 ⊢
      simp only [List.find?]
      rw [hb2]
  · intro h1lt hne2 h2lt hmatch2
    rw [verify_rfid_scan_eq tag cps last hlast hlt hne1]
    have hb2 : ((cps.getD ((last + 1).toNat + 1) default).rfid_tag == some tag) = false :=
      beq_eq_false_iff_ne.mpr hne2
    have hb3 : ((cps.getD ((last + 1).toNat + 2) default).rfid_tag == some tag) = true :=
      beq_iff_eq.mpr hmatch2
    have hk : min ((last + 1).toNat + 3) cps.length - ((last + 1).toNat + 1) = 2 := by
      omega
    rw [hk]
    have hr : List.range' ((last + 1).toNat + 1) 2 =
        [(last + 1).toNat + 1, (last + 1).toNat + 2] := rfl
    rw [hr]
    simp only [List.getD_eq_getElem?_getD] at hb2 hb3 ⊢
    simp only [List.find?]
    rw [hb2, hb3]
  · intro hnone
    rw [verify_rfid_scan_eq tag cps last hlast hlt hne1]
    have hfind : (List.range' ((last + 1).toNat + 1)
        (min ((last + 1).toNat + 3) cps.length - ((last + 1).toNat + 1))).find?
        (fun i => (cps.getD i default).rfid_tag == some tag) = none := by
      rw [List.find?_eq_none]
      intro i hi
      rw [List.mem_range'_1] at hi
      exact beq_eq_false_iff_ne.mpr (hnone i (by omega) (by omega)) ▸ by simp
    rw [hfind]

/-- A concrete four-checkpoint route with RFID tags for exercising
`verify_rfid_checkpoint`. -/
noncomputable def rfidDemoRoute : List RouteCheckpoint :=
  [⟨((0 : ℝ), (0 : ℝ)), 0, some "T0"⟩, ⟨((1 : ℝ), (0 : ℝ)), 600, some "T1"⟩,
   ⟨((2 : ℝ), (0 : ℝ)), 1200, some "T2"⟩, ⟨((3 : ℝ), (0 : ℝ)), 1800, none⟩]

/-- Witness for claim C9: on the demo route, a direct next-checkpoint match,
a one-skipped-checkpoint match, and a past-the-end query. -/
theorem claim_C9_witness :
    verify_rfid_checkpoint "T1" (some rfidDemoRoute) 0 =
      some (rfidDemoRoute.getD 1 default) ∧
    verify_rfid_checkpoint "T2" (some rfidDemoRoute) 0 =
      some (rfidDemoRoute.getD 2 default) ∧
    verify_rfid_checkpoint "T0" (some rfidDemoRoute) 3 = none := by
  refine ⟨?_, ?_, ?_⟩
  · exact ((claim_C9_verify_rfid "T1" rfidDemoRoute 0 (by norm_num)).2
      (by simp [rfidDemoRoute])).1 (by simp [rfidDemoRoute])
  · exact ((((claim_C9_verify_rfid "T2" rfidDemoRoute 0 (by norm_num)).2
      (by simp [rfidDemoRoute])).2 (by simp [rfidDemoRoute])).1
        (by simp [rfidDemoRoute]) (by simp [rfidDemoRoute]))
  · exact (claim_C9_verify_rfid "T0" rfidDemoRoute 3 (by norm_num)).1
      (by simp [rfidDemoRoute])

lemma train_pairs_length {α : Type} (l : List α) :
    (train_pairs l).length = l.length.choose 2 := by
  induction l with
  | nil => rfl
  | cons x xs ih =>
    simp only [train_pairs, List.length_append, List.length_map, ih, List.length_cons,
      Nat.choose_succ_succ, Nat.choose_one_right]

lemma mem_train_pairs {α : Type} (l : List α) (p : α × α) :
    p ∈ train_pairs l ↔ ∃ i j : ℕ, i < j ∧ l[i]? = some p.1 ∧ l[j]? = some p.2 := by
  induction l generalizing p with
  | nil => simp [train_pairs]
  | cons x xs ih =>
    simp only [train_pairs, List.mem_append, List.mem_map, ih]
    constructor
    · rintro (⟨y, hy, rfl⟩ | ⟨i, j, hij, h1, h2⟩)
      · obtain ⟨j, hj⟩ := List.mem_iff_getElem?.mp hy
        exact ⟨0, j + 1, Nat.succ_pos j, by simp, by simpa using hj⟩
      · exact ⟨i + 1, j + 1, Nat.succ_lt_succ hij, by simpa using h1, by simpa using h2⟩
    · rintro ⟨i, j, hij, h1, h2⟩
      cases i with
      | zero =>
        obtain ⟨j', rfl⟩ : ∃ j', j = j' + 1 := ⟨j - 1, by omega⟩
        simp only [List.getElem?_cons_zero, Option.some.injEq] at h1
        simp only [List.getElem?_cons_succ] at h2
        exact Or.inl ⟨p.2, List.mem_iff_getElem?.mpr ⟨j', h2⟩, by rw [h1]⟩
      | succ i' =>
        obtain ⟨j', rfl⟩ : ∃ j', j = j' + 1 := ⟨j - 1, by omega⟩
        simp only [List.getElem?_cons_succ] at h1 h2
        exact Or.inr ⟨i', j', Nat.lt_of_succ_lt_succ hij, h1, h2⟩

lemma filterMap_keep_eq_filter_map {α β : Type} (l : List α) (f : α → β) (q : β → Prop)
    [DecidablePred q] :
    l.filterMap (fun a => if q (f a) then some (f a) else none) =
      (l.map f).filter (fun b => decide (q b)) := by
  induction l with
  | nil => rfl
  | cons x xs ih =>
    by_cases h : q (f x)
    · simp [List.filterMap_cons, List.filter_cons, h, ih]
    · simp [List.filterMap_cons, List.filter_cons, h, ih]

/-- Claim C5: over `n` active trains, `check_all_train_collisions` evaluates
exactly the `n(n-1)/2` index pairs `i < j`, in the stable loop order, with no
duplicate and no self pair, and returns exactly the assessments whose risk is
not `"none"`, in that order. -/
theorem claim_C5_check_all_pairs (active_trains : List String)
    (risk : String → String → CollisionResult) :
    (check_all_train_collisions active_trains risk =
      ((train_pairs active_trains).map (fun p => risk p.1 p.2)).filter
        (fun r => r.collision_risk ≠ "none")) ∧
    ((train_pairs active_trains).length =
      active_trains.length * (active_trains.length - 1) / 2) ∧
    (∀ p : String × String, p ∈ train_pairs active_trains ↔
      ∃ i j : ℕ, i < j ∧ active_trains[i]? = some p.1 ∧ active_trains[j]? = some p.2) ∧
    (active_trains.Nodup → ∀ x, (x, x) ∉ train_pairs active_trains) ∧
    (active_trains.Nodup → ∀ a b, (a, b) ∈ train_pairs active_trains →
      (b, a) ∉ train_pairs active_trains) := by
  refine ⟨?_, ?_, mem_train_pairs active_trains, ?_, ?_⟩
  · unfold check_all_train_collisions
    exact filterMap_keep_eq_filter_map (train_pairs active_trains)
      (fun p => risk p.1 p.2) (fun r => r.collision_risk ≠ "none")
  · rw [train_pairs_length, Nat.choose_two_right]
  · intro hnodup x hx
    obtain ⟨i, j, hij, h1, h2⟩ := (mem_train_pairs active_trains (x, x)).mp hx
    have hi : i < active_trains.length := by
      by_contra hge
      rw [List.getElem?_eq_none (by omega)] at h1
      exact Option.noConfusion h1
    exact absurd (List.getElem?_inj hi hnodup (h1.trans h2.symm)) (Nat.ne_of_lt hij)
  · intro hnodup a b hab hba
    obtain ⟨i, j, hij, h1, h2⟩ := (mem_train_pairs active_trains (a, b)).mp hab
    obtain ⟨i', j', hij', h1', h2'⟩ := (mem_train_pairs active_trains (b, a)).mp hba
    have hi : i < active_trains.length := by
      by_contra hge
      rw [List.getElem?_eq_none (by omega)] at h1
      exact Option.noConfusion h1
    have hi' : i' < active_trains.length := by
      by_contra hge
      rw [List.getElem?_eq_none (by omega)] at h1'
      exact Option.noConfusion h1'
    have hij'' : i = j' := List.getElem?_inj hi hnodup (h1.trans h2'.symm)
    have hji : i' = j := List.getElem?_inj hi' hnodup (h1'.trans h2.symm)
    omega

/-- Witness for claim C5 over a concrete three-train fleet (with a risk
function marking every pair), exercising the duplicate-freedom hypotheses. -/
theorem claim_C5_witness :
    train_pairs ["A", "B", "C"] = [("A", "B"), ("A", "C"), ("B", "C")] ∧
    (train_pairs ["A", "B", "C"]).length = 3 * (3 - 1) / 2 ∧
    (∀ x : String, (x, x) ∉ train_pairs ["A", "B", "C"]) ∧
    ("A", "B") ∈ train_pairs ["A", "B", "C"] ∧
    ("B", "A") ∉ train_pairs ["A", "B", "C"] := by
  have h := claim_C5_check_all_pairs ["A", "B", "C"] (fun a b =>
    ⟨a, b, "warning", none, none, none, ⟨0, 330⟩⟩)
  have hnodup : (["A", "B", "C"] : List String).Nodup := by decide
  refine ⟨by decide, ?_, h.2.2.2.1 hnodup, by decide, ?_⟩
  · simpa using h.2.1
  · exact h.2.2.2.2 hnodup "A" "B" (by decide)

lemma first_exceed_idx_some_spec (elapsed : ℝ) (l : List RouteCheckpoint) (i : ℕ)
    (h : first_exceed_idx elapsed l = some i) :
    i < l.length ∧ elapsed < (l.getD i default).interval ∧
      ∀ j, j < i → ¬ elapsed < (l.getD j default).interval := by
  induction l generalizing i with
  | nil => simp [first_exceed_idx] at h
  | cons cp rest ih =>
    unfold first_exceed_idx at h
    by_cases hc : elapsed < cp.interval
    · rw [if_pos hc] at h
      obtain rfl : i = 0 := by simpa using h.symm
      exact ⟨Nat.succ_pos _, by simpa using hc, fun j hj => absurd hj (Nat.not_lt_zero j)⟩
    · rw [if_neg hc] at h
      obtain ⟨i', hi', rfl⟩ := Option.map_eq_some'.mp h
      obtain ⟨h1, h2, h3⟩ := ih i' hi'
      refine ⟨Nat.succ_lt_succ h1, by simpa using h2, ?_⟩
      intro j hj
      cases j with
      | zero => simpa using hc
      | succ j' => simpa using h3 j' (Nat.lt_of_succ_lt_succ hj)

lemma first_exceed_idx_none_spec (elapsed : ℝ) (l : List RouteCheckpoint)
    (h : first_exceed_idx elapsed l = none) :
    ∀ j, j < l.length → ¬ elapsed < (l.getD j default).interval := by
  induction l with
  | nil => intro j hj; simp at hj
  | cons cp rest ih =>
    unfold first_exceed_idx at h
    by_cases hc : elapsed < cp.interval
    · rw [if_pos hc] at h
      exact absurd h (by simp)
    · rw [if_neg hc] at h
      intro j hj
      cases j with
      | zero => simpa using hc
      | succ j' =>
        have hrest : first_exceed_idx elapsed rest = none := by
          simpa using h
        simpa using ih hrest j' (Nat.lt_of_succ_lt_succ hj)

lemma range'_map_sub_sum (f : ℕ → ℝ) (a k : ℕ) :
    ((List.range' (a + 1) k).map (fun i => f i - f (i - 1))).sum = f (a + k) - f a := by
  induction k generalizing a with
  | zero => simp
  | succ k ih =>
    have hr : List.range' (a + 1) (k + 1) = (a + 1) :: List.range' (a + 2) k := by
      simp [List.range']
    rw [hr, List.map_cons, List.sum_cons]
    have := ih (a + 1)
    simp only [Nat.add_sub_cancel] at *
    rw [show a + 2 = (a + 1) + 1 by omega] at *
    rw [this]
    rw [show a + 1 + k = a + (k + 1) by omega]
    ring

lemma delay_sum_telescopes (cps : List RouteCheckpoint) (a e : ℕ) (h : a ≤ e) :
    delay_sum cps a e =
      (cps.getD e default).interval - (cps.getD a default).interval := by
  unfold delay_sum
  have := range'_map_sub_sum (fun i => (cps.getD i default).interval) a (e - a)
  rw [show a + (e - a) = e by omega] at this
  exact this

/-- Claim C8: with the expected checkpoint defined by the code's scan (the
checkpoint whose interval is the largest value at most `elapsed`, given a
sorted interval list whose first interval has been reached),
`is_train_on_schedule` reports zero delay and on-schedule whenever the actual
nearest-checkpoint index is at least the expected index, and otherwise a delay
equal to the telescoped interval difference `expected.interval -
actual.interval` with `onSchedule = delay ≤ tolerance`. -/
theorem claim_C8_schedule_adherence (cps : List RouteCheckpoint) (elapsed : ℝ)
    (actual_idx : ℤ) (tol : ℝ)
    (hne : cps ≠ [])
    (hsorted : ∀ i j : ℕ, i ≤ j → j < cps.length →
      (cps.getD i default).interval ≤ (cps.getD j default).interval)
    (hfirst : (cps.getD 0 default).interval ≤ elapsed)
    (hactual0 : 0 ≤ actual_idx) (hactual_len : actual_idx < (cps.length : ℤ)) :
    ∃ expected : ℕ,
      expected_checkpoint_idx cps elapsed = some expected ∧
      expected < cps.length ∧
      (cps.getD expected default).interval ≤ elapsed ∧
      (∀ j : ℕ, j < cps.length → (cps.getD j default).interval ≤ elapsed →
        j ≤ expected) ∧
      ((expected : ℤ) ≤ actual_idx →
        is_train_on_schedule_core cps elapsed actual_idx tol = (some 0, true)) ∧
      (actual_idx < (expected : ℤ) →
        ∃ b : Bool, is_train_on_schedule_core cps elapsed actual_idx tol =
          (some ((cps.getD expected default).interval -
            (cps.getD actual_idx.toNat default).interval), b) ∧
          (b = true ↔ (cps.getD expected default).interval -
            (cps.getD actual_idx.toNat default).interval ≤ tol)) := by
  have hlen : 0 < cps.length := List.length_pos.mpr hne
  have hempf : cps.isEmpty = false := by
    cases cps with
    | nil => exact absurd rfl hne
    | cons a l => rfl
  -- determine the expected index from the scan
  obtain ⟨expected, hexp, hexp_lt, hexp_le, hexp_max⟩ :
      ∃ expected : ℕ,
        expected_checkpoint_idx cps elapsed = some expected ∧
        expected < cps.length ∧
        (cps.getD expected default).interval ≤ elapsed ∧
        (∀ j : ℕ, j < cps.length → (cps.getD j default).interval ≤ elapsed →
          j ≤ expected) := by
    cases hfe : first_exceed_idx elapsed cps with
    | none =>
      refine ⟨cps.length - 1, ?_, by omega, ?_, fun j hj _ => by omega⟩
      · unfold expected_checkpoint_idx
        rw [hfe, hempf]
        simp
      · exact not_lt.mp (first_exceed_idx_none_spec elapsed cps hfe (cps.length - 1)
          (by omega))
    | some i =>
      obtain ⟨hi_lt, hi_gt, hi_min⟩ := first_exceed_idx_some_spec elapsed cps i hfe
      have hipos : 0 < i := by
        rcases Nat.eq_zero_or_pos i with h0 | h0
        · subst h0
          exact absurd hi_gt (not_lt.mpr hfirst)
        · exact h0
      refine ⟨i - 1, ?_, by omega, ?_, ?_⟩
      · unfold expected_checkpoint_idx
        rw [hfe]
        simp [hipos]
      · exact not_lt.mp (hi_min (i - 1) (by omega))
      · intro j hj hle
        by_contra hgt
        have hij : i ≤ j := by omega
        exact absurd (le_trans (hsorted i j hij hj) hle) (not_le.mpr hi_gt)
  have hcore : is_train_on_schedule_core cps elapsed actual_idx tol =
      if actual_idx < (expected : ℤ) then
        (some (delay_sum cps actual_idx.toNat expected),
          decide (delay_sum cps actual_idx.toNat expected ≤ tol))
      else (some 0, true) := by
    unfold is_train_on_schedule_core
    rw [hexp]
  refine ⟨expected, hexp, hexp_lt, hexp_le, hexp_max, ?_, ?_⟩
  · intro hge
    rw [hcore, if_neg (not_lt.mpr hge)]
  · intro hlt
    rw [hcore, if_pos hlt]
    have htoNat : actual_idx.toNat ≤ expected := by omega
    have hdelay := delay_sum_telescopes cps actual_idx.toNat expected htoNat
    refine ⟨decide (delay_sum cps actual_idx.toNat expected ≤ tol), ?_, ?_⟩
    · rw [hdelay]
    · rw [decide_eq_true_eq, hdelay]

/-- The spec scenario route: three checkpoints on the equator at longitudes
0°, 2°, 4° with intervals `[0, 600, 1200]`. -/
noncomputable def intervalDemoRoute : List RouteCheckpoint :=
  [⟨((0 : ℝ), (0 : ℝ)), 0, none⟩, ⟨((2 : ℝ), (0 : ℝ)), 600, none⟩,
   ⟨((4 : ℝ), (0 : ℝ)), 1200, none⟩]

lemma intervalDemoRoute_length : intervalDemoRoute.length = 3 := by
  simp [intervalDemoRoute]

/-- Witness for claim C8: on the `[0, 600, 1200]` route with 700 s elapsed, a
train still at checkpoint 0 is 600 s late and off schedule for a 300 s
tolerance. -/
theorem claim_C8_witness :
    is_train_on_schedule_core intervalDemoRoute 700 0 300 = (some 600, false) := by
  obtain ⟨expected, hexp, hexp_lt, hexp_le, hexp_max, hge, hlt⟩ :=
    claim_C8_schedule_adherence intervalDemoRoute 700 0 300
      (by simp [intervalDemoRoute])
      (by
        intro i j hij hj
        rw [intervalDemoRoute_length] at hj
        interval_cases j <;> interval_cases i <;> simp [intervalDemoRoute] <;> norm_num)
      (by simp [intervalDemoRoute])
      (by norm_num)
      (by rw [intervalDemoRoute_length]; norm_num)
  have h1le : (1 : ℕ) ≤ expected := by
    apply hexp_max 1 (by rw [intervalDemoRoute_length]; norm_num)
    simp [intervalDemoRoute]
    norm_num
  have hne2 : expected ≠ 2 := by
    intro h2
    rw [h2] at hexp_le
    simp [intervalDemoRoute] at hexp_le
    norm_num at hexp_le
  have hexp1 : expected = 1 := by
    rw [intervalDemoRoute_length] at hexp_lt
    omega
  subst hexp1
  obtain ⟨b, hb, hbiff⟩ := hlt (by norm_num)
  have hbfalse : b = false := by
    rcases Bool.eq_false_or_eq_true b with ht | hf
    · exfalso
      have := hbiff.mp ht
      simp [intervalDemoRoute] at this
      norm_num at this
    · exact hf
  rw [hbfalse] at hb
  rw [hb]
  simp [intervalDemoRoute]

lemma classify_severity_critical_iff (d t : ℝ) :
    classify_severity d t = "critical" ↔ d > 3 * t := by
  unfold classify_severity
  by_cases h3 : d > 3 * t
  · simp [h3]
  · by_cases h2 : d > 2 * t <;> simp [h3, h2]

lemma classify_severity_high_iff (d t : ℝ) :
    classify_severity d t = "high" ↔ (d > 2 * t ∧ ¬ d > 3 * t) := by
  unfold classify_severity
  by_cases h3 : d > 3 * t
  · simp [h3]
  · by_cases h2 : d > 2 * t <;> simp [h3, h2]

lemma classify_severity_moderate_iff (d t : ℝ) :
    classify_severity d t = "moderate" ↔ (¬ d > 3 * t ∧ ¬ d > 2 * t) := by
  unfold classify_severity
  by_cases h3 : d > 3 * t
  · rw [if_pos h3]
    simp [h3]
  · rw [if_neg h3]
    by_cases h2 : d > 2 * t
    · rw [if_pos h2]
      simp [h3, h2]
    · rw [if_neg h2]
      simp [h3, h2]

lemma severity_rank_mono (t : ℝ) (d1 d2 : ℝ) (h : d1 ≤ d2) :
    severity_rank (classify_severity d1 t) ≤ severity_rank (classify_severity d2 t) := by
  unfold classify_severity severity_rank
  by_cases h31 : d1 > 3 * t
  · rw [if_pos h31, if_pos (by linarith : d2 > 3 * t)]
  · rw [if_neg h31]
    by_cases h21 : d1 > 2 * t
    · rw [if_pos h21]
      rw [if_neg (by decide : ¬ ("high" : String) = "critical"), if_pos rfl]
      by_cases h32 : d2 > 3 * t
      · rw [if_pos h32]
        rw [if_pos rfl]
        norm_num
      · rw [if_neg h32, if_pos (by linarith : d2 > 2 * t)]
        rw [if_neg (by decide : ¬ ("high" : String) = "critical"), if_pos rfl]
    · rw [if_neg h21]
      rw [if_neg (by decide : ¬ ("moderate" : String) = "critical"),
        if_neg (by decide : ¬ ("moderate" : String) = "high")]
      omega

lemma detect_route_deviations_error_eq (train_id route_id : String)
    (log_loc : GeoPoint) (cps : List RouteCheckpoint) (thr : ℝ) (now : ℤ) (idx : ℕ)
    (hlen : 2 ≤ cps.length)
    (hfind : (find_nearest_checkpoint log_loc cps).2 = (idx : ℤ))
    (hlast : idx ≠ cps.length - 1) :
    detect_route_deviations train_id (some route_id) (some log_loc) (some cps) thr now =
      Except.error "NameError: name 'is_point_near_line' is not defined" := by
  unfold detect_route_deviations
  simp only []
  rw [if_neg (by omega : ¬ cps.length < 2)]
  rw [hfind]
  rw [if_neg (by omega : ¬ (idx : ℤ) = -1)]
  rw [Int.toNat_natCast]
  rw [if_neg hlast]

/-- Claim C4 names the severity classification the source writes down
(`tracking.py` lines 383-388), but the code never reaches it: `tracking.py`
does not import `is_point_near_line`, so `detect_route_deviations` raises
`NameError` at line 331 on every evaluable path (route assigned, latest
position present, at least two checkpoints, nearest index valid and not the
last) and never reports a deviation or a severity.  The written
classification expressions themselves do satisfy the claimed thresholds and
monotonicity. -/
theorem claim_C4_deviation_never_classified (train_id route_id : String)
    (log_loc : GeoPoint) (cps : List RouteCheckpoint) (thr : ℝ) (now : ℤ) (idx : ℕ)
    (hlen : 2 ≤ cps.length)
    (hfind : (find_nearest_checkpoint log_loc cps).2 = (idx : ℤ))
    (hlast : idx ≠ cps.length - 1) :
    detect_route_deviations train_id (some route_id) (some log_loc) (some cps) thr now =
      Except.error "NameError: name 'is_point_near_line' is not defined" ∧
    (∀ d : ℝ, (classify_severity d thr = "critical" ↔ d > 3 * thr) ∧
      (classify_severity d thr = "high" ↔ (d > 2 * thr ∧ ¬ d > 3 * thr)) ∧
      (classify_severity d thr = "moderate" ↔ (¬ d > 3 * thr ∧ ¬ d > 2 * thr))) ∧
    (∀ d1 d2 : ℝ, d1 ≤ d2 →
      severity_rank (classify_severity d1 thr) ≤ severity_rank (classify_severity d2 thr)) :=
  ⟨detect_route_deviations_error_eq train_id route_id log_loc cps thr now idx
      hlen hfind hlast,
    fun d => ⟨classify_severity_critical_iff d thr, classify_severity_high_iff d thr,
      classify_severity_moderate_iff d thr⟩,
    fun d1 d2 h => severity_rank_mono thr d1 d2 h⟩

/-- A two-checkpoint route on the equator (longitudes 0° and 0.001°) for the
deviation witness. -/
noncomputable def devDemoRoute : List RouteCheckpoint :=
  [⟨((0 : ℝ), (0 : ℝ)), 0, none⟩, ⟨((1/1000 : ℝ), (0 : ℝ)), 600, none⟩]

lemma devDemo_d0 : calculate_distance ((-10 : ℝ), (0 : ℝ)) ((0 : ℝ), (0 : ℝ)) =
    10 * (6371000 * Real.pi / 180) := by
  have h := calculate_distance_equator (-10) 0 (by norm_num) (by norm_num)
  rw [h]
  ring

lemma devDemo_d1 : calculate_distance ((-10 : ℝ), (0 : ℝ)) ((1/1000 : ℝ), (0 : ℝ)) =
    (1/1000 + 10) * (6371000 * Real.pi / 180) := by
  have h := calculate_distance_equator (-10) (1/1000) (by norm_num) (by norm_num)
  rw [h]
  ring

lemma devDemo_find : find_nearest_checkpoint ((-10 : ℝ), (0 : ℝ)) devDemoRoute =
    (some (devDemoRoute.getD 0 default), 0) := by
  have hc : (0 : ℝ) < 6371000 * Real.pi / 180 := by
    have := Real.pi_pos
    positivity
  have hnotlt : ¬ (calculate_distance ((-10 : ℝ), (0 : ℝ)) ((1/1000 : ℝ), (0 : ℝ)) <
      calculate_distance ((-10 : ℝ), (0 : ℝ)) ((0 : ℝ), (0 : ℝ))) := by
    rw [devDemo_d0, devDemo_d1]
    push_neg
    nlinarith
  unfold find_nearest_checkpoint
  simp only [devDemoRoute, List.enum, List.enumFrom, find_nearest_go]
  rw [if_pos trivial]
  rw [if_neg hnotlt]
  rfl

/-- Witness for claim C4: the evaluable train at `(-10°, 0°)` on the
`devDemoRoute` segment makes `detect_route_deviations` raise the `NameError`
instead of reporting any severity, while the written classification satisfies
the claimed critical threshold at a concrete distance. -/
theorem claim_C4_witness :
    detect_route_deviations "T" (some "R") (some ((-10 : ℝ), (0 : ℝ)))
        (some devDemoRoute) 100 0 =
      Except.error "NameError: name 'is_point_near_line' is not defined" ∧
    (classify_severity 400 100 = "critical" ↔ (400 : ℝ) > 3 * 100) := by
  have h := claim_C4_deviation_never_classified "T" "R" ((-10 : ℝ), (0 : ℝ))
    devDemoRoute 100 0 0
    (by simp [devDemoRoute])
    (by rw [devDemo_find]; norm_num)
    (by simp [devDemoRoute])
  exact ⟨h.1, (h.2.1 400).1⟩

/-- A lookahead offset "hits" when both projections exist and their distance
is within the critical threshold. -/
def offset_qualifies (e1 e2 : ℕ → Option GeoPoint) (m : ℕ) : Prop :=
  ∃ p1 p2, e1 m = some p1 ∧ e2 m = some p2 ∧
    calculate_distance p1 p2 ≤ COLLISION_CRITICAL_DISTANCE

lemma scan_time_offsets_no_hit (e1 e2 : ℕ → Option GeoPoint) (l : List ℕ)
    (r : CollisionResult) (h : ∀ m ∈ l, ¬ offset_qualifies e1 e2 m) :
    scan_time_offsets e1 e2 l r = r := by
  induction l with
  | nil => rfl
  | cons m rest ih =>
    have hrest : scan_time_offsets e1 e2 rest r = r :=
      ih (fun k hk => h k (List.mem_cons_of_mem m hk))
    have hm := h m (List.mem_cons_self m rest)
    rcases he1 : e1 m with _ | p1
    · unfold scan_time_offsets
      rw [he1]
      exact hrest
    · rcases he2 : e2 m with _ | p2
      · unfold scan_time_offsets
        rw [he1, he2]
        exact hrest
      · have hnotle : ¬ (calculate_distance p1 p2 ≤ COLLISION_CRITICAL_DISTANCE) :=
          fun hle => hm ⟨p1, p2, he1, he2, hle⟩
        unfold scan_time_offsets
        rw [he1, he2]
        exact (if_neg hnotle).trans hrest

lemma scan_time_offsets_first_hit (e1 e2 : ℕ → Option GeoPoint) (pre : List ℕ)
    (m : ℕ) (post : List ℕ) (r : CollisionResult) (p1 p2 : GeoPoint)
    (hpre : ∀ k ∈ pre, ¬ offset_qualifies e1 e2 k)
    (h1 : e1 m = some p1) (h2 : e2 m = some p2)
    (hle : calculate_distance p1 p2 ≤ COLLISION_CRITICAL_DISTANCE) :
    scan_time_offsets e1 e2 (pre ++ m :: post) r =
      { r with collision_risk := "predicted"
               estimated_time_to_collision := some (m * 60)
               location := some (midpoint_location p1 p2) } := by
  induction pre with
  | nil =>
    rw [List.nil_append]
    unfold scan_time_offsets
    rw [h1, h2]
    exact if_pos hle
  | cons k pre' ih =>
    have hrest : scan_time_offsets e1 e2 (pre' ++ m :: post) r = _ :=
      ih (fun j hj => hpre j (List.mem_cons_of_mem k hj))
    have hk := hpre k (List.mem_cons_self k pre')
    rw [List.cons_append]
    rcases he1 : e1 k with _ | q1
    · unfold scan_time_offsets
      rw [he1]
      exact hrest
    · rcases he2 : e2 k with _ | q2
      · unfold scan_time_offsets
        rw [he1, he2]
        exact hrest
      · have hnotle : ¬ (calculate_distance q1 q2 ≤ COLLISION_CRITICAL_DISTANCE) :=
          fun hle' => hk ⟨q1, q2, he1, he2, hle'⟩
        unfold scan_time_offsets
        rw [he1, he2]
        exact (if_neg hnotle).trans hrest

lemma scan_time_offsets_step_none1 (e1 e2 : ℕ → Option GeoPoint) (m : ℕ)
    (rest : List ℕ) (r : CollisionResult) (he1 : e1 m = none) :
    scan_time_offsets e1 e2 (m :: rest) r = scan_time_offsets e1 e2 rest r := by
  rcases he2 : e2 m with _ | p2 <;>
    · simp only [scan_time_offsets]
      rw [he1, he2]

lemma scan_time_offsets_step_none2 (e1 e2 : ℕ → Option GeoPoint) (m : ℕ)
    (rest : List ℕ) (r : CollisionResult) (p1 : GeoPoint)
    (he1 : e1 m = some p1) (he2 : e2 m = none) :
    scan_time_offsets e1 e2 (m :: rest) r = scan_time_offsets e1 e2 rest r := by
  simp only [scan_time_offsets]
  rw [he1, he2]

lemma scan_time_offsets_step_miss (e1 e2 : ℕ → Option GeoPoint) (m : ℕ)
    (rest : List ℕ) (r : CollisionResult) (p1 p2 : GeoPoint)
    (he1 : e1 m = some p1) (he2 : e2 m = some p2)
    (hc : ¬ calculate_distance p1 p2 ≤ COLLISION_CRITICAL_DISTANCE) :
    scan_time_offsets e1 e2 (m :: rest) r = scan_time_offsets e1 e2 rest r := by
  simp only [scan_time_offsets]
  rw [he1, he2]
  exact if_neg hc

lemma scan_time_offsets_step_hit (e1 e2 : ℕ → Option GeoPoint) (m : ℕ)
    (rest : List ℕ) (r : CollisionResult) (p1 p2 : GeoPoint)
    (he1 : e1 m = some p1) (he2 : e2 m = some p2)
    (hc : calculate_distance p1 p2 ≤ COLLISION_CRITICAL_DISTANCE) :
    scan_time_offsets e1 e2 (m :: rest) r =
      { r with collision_risk := "predicted"
               estimated_time_to_collision := some (m * 60)
               location := some (midpoint_location p1 p2) } := by
  simp only [scan_time_offsets]
  rw [he1, he2]
  exact if_pos hc

lemma scan_time_offsets_preserves (e1 e2 : ℕ → Option GeoPoint) (l : List ℕ)
    (r : CollisionResult) :
    (scan_time_offsets e1 e2 l r).train1_id = r.train1_id ∧
    (scan_time_offsets e1 e2 l r).train2_id = r.train2_id ∧
    (scan_time_offsets e1 e2 l r).distance = r.distance ∧
    (scan_time_offsets e1 e2 l r).timestamp = r.timestamp := by
  induction l generalizing r with
  | nil => exact ⟨rfl, rfl, rfl, rfl⟩
  | cons m rest ih =>
    rcases he1 : e1 m with _ | p1
    · rw [scan_time_offsets_step_none1 e1 e2 m rest r he1]
      exact ih r
    · rcases he2 : e2 m with _ | p2
      · rw [scan_time_offsets_step_none2 e1 e2 m rest r p1 he1 he2]
        exact ih r
      · by_cases hc : calculate_distance p1 p2 ≤ COLLISION_CRITICAL_DISTANCE
        · rw [scan_time_offsets_step_hit e1 e2 m rest r p1 p2 he1 he2 hc]
          exact ⟨rfl, rfl, rfl, rfl⟩
        · rw [scan_time_offsets_step_miss e1 e2 m rest r p1 p2 he1 he2 hc]
          exact ih r

lemma scan_time_offsets_risk (e1 e2 : ℕ → Option GeoPoint) (l : List ℕ)
    (r : CollisionResult) :
    (scan_time_offsets e1 e2 l r).collision_risk = r.collision_risk ∨
    (scan_time_offsets e1 e2 l r).collision_risk = "predicted" := by
  induction l generalizing r with
  | nil => exact Or.inl rfl
  | cons m rest ih =>
    rcases he1 : e1 m with _ | p1
    · rw [scan_time_offsets_step_none1 e1 e2 m rest r he1]
      exact ih r
    · rcases he2 : e2 m with _ | p2
      · rw [scan_time_offsets_step_none2 e1 e2 m rest r p1 he1 he2]
        exact ih r
      · by_cases hc : calculate_distance p1 p2 ≤ COLLISION_CRITICAL_DISTANCE
        · rw [scan_time_offsets_step_hit e1 e2 m rest r p1 p2 he1 he2 hc]
          exact Or.inr rfl
        · rw [scan_time_offsets_step_miss e1 e2 m rest r p1 p2 he1 he2 hc]
          exact ih r

lemma check_collision_risk_missing (t1 t2 : String) (l1 l2 : Option GeoPoint)
    (e1 e2 : ℕ → Option GeoPoint) (now : ℤ) (h : l1 = none ∨ l2 = none) :
    check_collision_risk t1 t2 l1 l2 e1 e2 now =
      ⟨t1, t2, "none", none, none, none, get_current_ist_time now⟩ := by
  rcases h with h | h
  · subst h
    rcases l2 with _ | p <;> rfl
  · subst h
    rcases l1 with _ | p <;> rfl

lemma check_collision_risk_critical_eq (t1 t2 : String) (loc1 loc2 : GeoPoint)
    (e1 e2 : ℕ → Option GeoPoint) (now : ℤ)
    (h : calculate_distance loc1 loc2 ≤ COLLISION_CRITICAL_DISTANCE) :
    check_collision_risk t1 t2 (some loc1) (some loc2) e1 e2 now =
      ⟨t1, t2, "critical", some (calculate_distance loc1 loc2), none,
        some (midpoint_location loc1 loc2), get_current_ist_time now⟩ := by
  unfold check_collision_risk
  exact if_pos h

lemma check_collision_risk_warning_eq (t1 t2 : String) (loc1 loc2 : GeoPoint)
    (e1 e2 : ℕ → Option GeoPoint) (now : ℤ)
    (h1 : ¬ calculate_distance loc1 loc2 ≤ COLLISION_CRITICAL_DISTANCE)
    (h2 : calculate_distance loc1 loc2 ≤ COLLISION_WARNING_DISTANCE) :
    check_collision_risk t1 t2 (some loc1) (some loc2) e1 e2 now =
      scan_time_offsets e1 e2 TIME_OFFSETS
        ⟨t1, t2, "warning", some (calculate_distance loc1 loc2), none,
          some (midpoint_location loc1 loc2), get_current_ist_time now⟩ := by
  unfold check_collision_risk
  exact (if_neg h1).trans (if_pos h2)

lemma check_collision_risk_far_eq (t1 t2 : String) (loc1 loc2 : GeoPoint)
    (e1 e2 : ℕ → Option GeoPoint) (now : ℤ)
    (h1 : ¬ calculate_distance loc1 loc2 ≤ COLLISION_CRITICAL_DISTANCE)
    (h2 : ¬ calculate_distance loc1 loc2 ≤ COLLISION_WARNING_DISTANCE) :
    check_collision_risk t1 t2 (some loc1) (some loc2) e1 e2 now =
      scan_time_offsets e1 e2 TIME_OFFSETS
        ⟨t1, t2, "none", some (calculate_distance loc1 loc2), none, none,
          get_current_ist_time now⟩ := by
  unfold check_collision_risk
  exact (if_neg h1).trans (if_neg h2)

/-- Claim C1: `check_collision_risk` answers `"none"` when either latest
position is missing; `"critical"` with the current midpoint and no projection
attempt when the current distance is within the critical threshold;
`"warning"` with the current midpoint when the distance is in the warning band
and no lookahead offset hits; and in every non-critical case the offsets
`[5, 10, 15, 30, 60]` are scanned in order, the first hit setting risk
`"predicted"`, `estimated_time_to_collision = offset * 60` and the projected
midpoint while later offsets are never examined (the result only depends on
the oracles up to the first hit). -/
theorem claim_C1_check_collision_risk (t1 t2 : String)
    (e1 e2 : ℕ → Option GeoPoint) (now : ℤ) :
    (∀ l2 : Option GeoPoint, check_collision_risk t1 t2 none l2 e1 e2 now =
      ⟨t1, t2, "none", none, none, none, get_current_ist_time now⟩) ∧
    (∀ l1 : Option GeoPoint, check_collision_risk t1 t2 l1 none e1 e2 now =
      ⟨t1, t2, "none", none, none, none, get_current_ist_time now⟩) ∧
    (∀ loc1 loc2 : GeoPoint,
      calculate_distance loc1 loc2 ≤ COLLISION_CRITICAL_DISTANCE →
      check_collision_risk t1 t2 (some loc1) (some loc2) e1 e2 now =
        ⟨t1, t2, "critical", some (calculate_distance loc1 loc2), none,
          some (midpoint_location loc1 loc2), get_current_ist_time now⟩) ∧
    (∀ loc1 loc2 : GeoPoint,
      ¬ calculate_distance loc1 loc2 ≤ COLLISION_CRITICAL_DISTANCE →
      calculate_distance loc1 loc2 ≤ COLLISION_WARNING_DISTANCE →
      (∀ m ∈ TIME_OFFSETS, ¬ offset_qualifies e1 e2 m) →
      check_collision_risk t1 t2 (some loc1) (some loc2) e1 e2 now =
        ⟨t1, t2, "warning", some (calculate_distance loc1 loc2), none,
          some (midpoint_location loc1 loc2), get_current_ist_time now⟩) ∧
    (∀ loc1 loc2 : GeoPoint,
      ¬ calculate_distance loc1 loc2 ≤ COLLISION_CRITICAL_DISTANCE →
      calculate_distance loc1 loc2 ≤ COLLISION_WARNING_DISTANCE →
      (check_collision_risk t1 t2 (some loc1) (some loc2) e1 e2 now).collision_risk =
          "warning" ∨
        (check_collision_risk t1 t2 (some loc1) (some loc2) e1 e2 now).collision_risk =
          "predicted") ∧
    (∀ (loc1 loc2 : GeoPoint) (pre : List ℕ) (m : ℕ) (post : List ℕ)
        (p1 p2 : GeoPoint),
      ¬ calculate_distance loc1 loc2 ≤ COLLISION_CRITICAL_DISTANCE →
      TIME_OFFSETS = pre ++ m :: post →
      (∀ k ∈ pre, ¬ offset_qualifies e1 e2 k) →
      e1 m = some p1 → e2 m = some p2 →
      calculate_distance p1 p2 ≤ COLLISION_CRITICAL_DISTANCE →
      ((check_collision_risk t1 t2 (some loc1) (some loc2) e1 e2 now).collision_risk =
          "predicted" ∧
        (check_collision_risk t1 t2 (some loc1) (some loc2) e1 e2
            now).estimated_time_to_collision = some (m * 60) ∧
        (check_collision_risk t1 t2 (some loc1) (some loc2) e1 e2 now).location =
          some (midpoint_location p1 p2)) ∧
      (∀ e1' e2' : ℕ → Option GeoPoint,
        (∀ k ∈ pre, e1' k = e1 k ∧ e2' k = e2 k) →
        e1' m = e1 m → e2' m = e2 m →
        check_collision_risk t1 t2 (some loc1) (some loc2) e1' e2' now =
          check_collision_risk t1 t2 (some loc1) (some loc2) e1 e2 now)) := by
  refine ⟨fun l2 => check_collision_risk_missing t1 t2 none l2 e1 e2 now (Or.inl rfl),
    fun l1 => check_collision_risk_missing t1 t2 l1 none e1 e2 now (Or.inr rfl),
    fun loc1 loc2 h => check_collision_risk_critical_eq t1 t2 loc1 loc2 e1 e2 now h,
    ?_, ?_, ?_⟩
  · intro loc1 loc2 h1 h2 hnone
    rw [check_collision_risk_warning_eq t1 t2 loc1 loc2 e1 e2 now h1 h2]
    exact scan_time_offsets_no_hit e1 e2 TIME_OFFSETS _ hnone
  · intro loc1 loc2 h1 h2
    rw [check_collision_risk_warning_eq t1 t2 loc1 loc2 e1 e2 now h1 h2]
    exact scan_time_offsets_risk e1 e2 TIME_OFFSETS _
  · intro loc1 loc2 pre m post p1 p2 h1 hsplit hpre he1 he2 hhit
    constructor
    · by_cases hw : calculate_distance loc1 loc2 ≤ COLLISION_WARNING_DISTANCE
      · rw [check_collision_risk_warning_eq t1 t2 loc1 loc2 e1 e2 now h1 hw, hsplit,
          scan_time_offsets_first_hit e1 e2 pre m post _ p1 p2 hpre he1 he2 hhit]
        exact ⟨rfl, rfl, rfl⟩
      · rw [check_collision_risk_far_eq t1 t2 loc1 loc2 e1 e2 now h1 hw, hsplit,
          scan_time_offsets_first_hit e1 e2 pre m post _ p1 p2 hpre he1 he2 hhit]
        exact ⟨rfl, rfl, rfl⟩
    · intro e1' e2' hagree hm1 hm2
      have hpre' : ∀ k ∈ pre, ¬ offset_qualifies e1' e2' k := by
        intro k hk hq
        obtain ⟨q1, q2, hq1, hq2, hqle⟩ := hq
        refine hpre k hk ⟨q1, q2, ?_, ?_, hqle⟩
        · rw [← (hagree k hk).1]
          exact hq1
        · rw [← (hagree k hk).2]
          exact hq2
      have he1' : e1' m = some p1 := hm1.trans he1
      have he2' : e2' m = some p2 := hm2.trans he2
      by_cases hw : calculate_distance loc1 loc2 ≤ COLLISION_WARNING_DISTANCE
      · rw [check_collision_risk_warning_eq t1 t2 loc1 loc2 e1' e2' now h1 hw,
          check_collision_risk_warning_eq t1 t2 loc1 loc2 e1 e2 now h1 hw, hsplit,
          scan_time_offsets_first_hit e1' e2' pre m post _ p1 p2 hpre' he1' he2' hhit,
          scan_time_offsets_first_hit e1 e2 pre m post _ p1 p2 hpre he1 he2 hhit]
      · rw [check_collision_risk_far_eq t1 t2 loc1 loc2 e1' e2' now h1 hw,
          check_collision_risk_far_eq t1 t2 loc1 loc2 e1 e2 now h1 hw, hsplit,
          scan_time_offsets_first_hit e1' e2' pre m post _ p1 p2 hpre' he1' he2' hhit,
          scan_time_offsets_first_hit e1 e2 pre m post _ p1 p2 hpre he1 he2 hhit]

lemma warnDemo_d : calculate_distance ((0 : ℝ), (0 : ℝ)) ((1/8000 : ℝ), (0 : ℝ)) =
    (1/8000) * (6371000 * Real.pi / 180) := by
  have h := calculate_distance_equator 0 (1/8000) (by norm_num) (by norm_num)
  rw [h]
  ring

lemma warnDemo_gt_critical :
    ¬ calculate_distance ((0 : ℝ), (0 : ℝ)) ((1/8000 : ℝ), (0 : ℝ)) ≤
      COLLISION_CRITICAL_DISTANCE := by
  rw [warnDemo_d]
  unfold COLLISION_CRITICAL_DISTANCE
  push_neg
  have := equator_degree_large
  nlinarith

lemma warnDemo_le_warning :
    calculate_distance ((0 : ℝ), (0 : ℝ)) ((1/8000 : ℝ), (0 : ℝ)) ≤
      COLLISION_WARNING_DISTANCE := by
  rw [warnDemo_d]
  unfold COLLISION_WARNING_DISTANCE
  have hπ := Real.pi_lt_d2
  nlinarith

/-- Witness for claim C1: a missing log, a critical pair at identical points,
a warning-band pair with no projection hit, and a warning-band pair whose
first lookahead offset hits and upgrades the risk to `"predicted"`. -/
theorem claim_C1_witness :
    check_collision_risk "A" "B" none none (fun _ => none) (fun _ => none) 0 =
      ⟨"A", "B", "none", none, none, none, get_current_ist_time 0⟩ ∧
    check_collision_risk "A" "B" (some ((0 : ℝ), (0 : ℝ))) (some ((0 : ℝ), (0 : ℝ)))
        (fun _ => none) (fun _ => none) 0 =
      ⟨"A", "B", "critical",
        some (calculate_distance ((0 : ℝ), (0 : ℝ)) ((0 : ℝ), (0 : ℝ))), none,
        some (midpoint_location ((0 : ℝ), (0 : ℝ)) ((0 : ℝ), (0 : ℝ))),
        get_current_ist_time 0⟩ ∧
    check_collision_risk "A" "B" (some ((0 : ℝ), (0 : ℝ)))
        (some ((1/8000 : ℝ), (0 : ℝ))) (fun _ => none) (fun _ => none) 0 =
      ⟨"A", "B", "warning",
        some (calculate_distance ((0 : ℝ), (0 : ℝ)) ((1/8000 : ℝ), (0 : ℝ))), none,
        some (midpoint_location ((0 : ℝ), (0 : ℝ)) ((1/8000 : ℝ), (0 : ℝ))),
        get_current_ist_time 0⟩ ∧
    (check_collision_risk "A" "B" (some ((0 : ℝ), (0 : ℝ)))
        (some ((1/8000 : ℝ), (0 : ℝ))) (fun _ => some ((0 : ℝ), (0 : ℝ)))
        (fun _ => some ((0 : ℝ), (0 : ℝ))) 0).collision_risk = "predicted" := by
  have hcrit0 : calculate_distance ((0 : ℝ), (0 : ℝ)) ((0 : ℝ), (0 : ℝ)) ≤
      COLLISION_CRITICAL_DISTANCE := by
    rw [calculate_distance_self]
    unfold COLLISION_CRITICAL_DISTANCE
    norm_num
  refine ⟨(claim_C1_check_collision_risk "A" "B" (fun _ => none) (fun _ => none) 0).1 none,
    (claim_C1_check_collision_risk "A" "B" (fun _ => none) (fun _ => none) 0).2.2.1
      ((0 : ℝ), (0 : ℝ)) ((0 : ℝ), (0 : ℝ)) hcrit0,
    (claim_C1_check_collision_risk "A" "B" (fun _ => none) (fun _ => none) 0).2.2.2.1
      ((0 : ℝ), (0 : ℝ)) ((1/8000 : ℝ), (0 : ℝ)) warnDemo_gt_critical warnDemo_le_warning
      ?_, ?_⟩
  · intro m hm hq
    obtain ⟨p1, p2, hp1, hp2, hple⟩ := hq
    exact Option.noConfusion hp1
  · exact (((claim_C1_check_collision_risk "A" "B" (fun _ => some ((0 : ℝ), (0 : ℝ)))
      (fun _ => some ((0 : ℝ), (0 : ℝ))) 0).2.2.2.2.2
      ((0 : ℝ), (0 : ℝ)) ((1/8000 : ℝ), (0 : ℝ)) [] 5 [10, 15, 30, 60]
      ((0 : ℝ), (0 : ℝ)) ((0 : ℝ), (0 : ℝ)) warnDemo_gt_critical rfl
      (fun k hk => absurd hk (List.not_mem_nil k)) rfl rfl hcrit0).1).1

/-- Claim C10 (implicit): for a pair in the warning band, a lookahead hit
overwrites the `"warning"` risk with `"predicted"` and the current-distance
midpoint with the projected midpoint, and only a critical current distance
suppresses the projection scan entirely (a critical result never depends on
the projection oracles). -/
theorem claim_C10_predicted_overwrites_warning (t1 t2 : String)
    (e1 e2 : ℕ → Option GeoPoint) (now : ℤ) :
    (∀ (loc1 loc2 : GeoPoint) (pre : List ℕ) (m : ℕ) (post : List ℕ)
        (p1 p2 : GeoPoint),
      ¬ calculate_distance loc1 loc2 ≤ COLLISION_CRITICAL_DISTANCE →
      calculate_distance loc1 loc2 ≤ COLLISION_WARNING_DISTANCE →
      TIME_OFFSETS = pre ++ m :: post →
      (∀ k ∈ pre, ¬ offset_qualifies e1 e2 k) →
      e1 m = some p1 → e2 m = some p2 →
      calculate_distance p1 p2 ≤ COLLISION_CRITICAL_DISTANCE →
      check_collision_risk t1 t2 (some loc1) (some loc2) e1 e2 now =
        ⟨t1, t2, "predicted", some (calculate_distance loc1 loc2), some (m * 60),
          some (midpoint_location p1 p2), get_current_ist_time now⟩) ∧
    (∀ loc1 loc2 : GeoPoint,
      calculate_distance loc1 loc2 ≤ COLLISION_CRITICAL_DISTANCE →
      ∀ e1' e2' : ℕ → Option GeoPoint,
        check_collision_risk t1 t2 (some loc1) (some loc2) e1' e2' now =
          check_collision_risk t1 t2 (some loc1) (some loc2) e1 e2 now) := by
  constructor
  · intro loc1 loc2 pre m post p1 p2 h1 h2 hsplit hpre he1 he2 hhit
    rw [check_collision_risk_warning_eq t1 t2 loc1 loc2 e1 e2 now h1 h2, hsplit,
      scan_time_offsets_first_hit e1 e2 pre m post _ p1 p2 hpre he1 he2 hhit]
  · intro loc1 loc2 h e1' e2'
    rw [check_collision_risk_critical_eq t1 t2 loc1 loc2 e1' e2' now h,
      check_collision_risk_critical_eq t1 t2 loc1 loc2 e1 e2 now h]

/-- Witness for claim C10: the warning-band pair from the C1 scenario whose
first offset projects both trains to the same point (risk upgraded to
`"predicted"` with the projected midpoint), and a critical pair whose result
ignores the projection oracles. -/
theorem claim_C10_witness :
    check_collision_risk "A" "B" (some ((0 : ℝ), (0 : ℝ)))
        (some ((1/8000 : ℝ), (0 : ℝ))) (fun _ => some ((2 : ℝ), (0 : ℝ)))
        (fun _ => some ((2 : ℝ), (0 : ℝ))) 0 =
      ⟨"A", "B", "predicted",
        some (calculate_distance ((0 : ℝ), (0 : ℝ)) ((1/8000 : ℝ), (0 : ℝ))),
        some (5 * 60), some (midpoint_location ((2 : ℝ), (0 : ℝ)) ((2 : ℝ), (0 : ℝ))),
        get_current_ist_time 0⟩ ∧
    check_collision_risk "A" "B" (some ((0 : ℝ), (0 : ℝ))) (some ((0 : ℝ), (0 : ℝ)))
        (fun _ => some ((2 : ℝ), (0 : ℝ))) (fun _ => none) 0 =
      check_collision_risk "A" "B" (some ((0 : ℝ), (0 : ℝ))) (some ((0 : ℝ), (0 : ℝ)))
        (fun _ => none) (fun _ => none) 0 := by
  have hcrit0 : calculate_distance ((0 : ℝ), (0 : ℝ)) ((0 : ℝ), (0 : ℝ)) ≤
      COLLISION_CRITICAL_DISTANCE := by
    rw [calculate_distance_self]
    unfold COLLISION_CRITICAL_DISTANCE
    norm_num
  have hcrit2 : calculate_distance ((2 : ℝ), (0 : ℝ)) ((2 : ℝ), (0 : ℝ)) ≤
      COLLISION_CRITICAL_DISTANCE := by
    rw [calculate_distance_self]
    unfold COLLISION_CRITICAL_DISTANCE
    norm_num
  constructor
  · exact (claim_C10_predicted_overwrites_warning "A" "B"
      (fun _ => some ((2 : ℝ), (0 : ℝ))) (fun _ => some ((2 : ℝ), (0 : ℝ))) 0).1
      ((0 : ℝ), (0 : ℝ)) ((1/8000 : ℝ), (0 : ℝ)) [] 5 [10, 15, 30, 60]
      ((2 : ℝ), (0 : ℝ)) ((2 : ℝ), (0 : ℝ)) warnDemo_gt_critical warnDemo_le_warning rfl
      (fun k hk => absurd hk (List.not_mem_nil k)) rfl rfl hcrit2
  · exact (claim_C10_predicted_overwrites_warning "A" "B" (fun _ => none)
      (fun _ => none) 0).2 ((0 : ℝ), (0 : ℝ)) ((0 : ℝ), (0 : ℝ)) hcrit0
      (fun _ => some ((2 : ℝ), (0 : ℝ))) (fun _ => none)

lemma round5_zero : round5 0 = 0 := by
  unfold round5
  norm_num

lemma round5_one : round5 1 = 1 := by
  unfold round5
  rw [one_mul, show ((100000 : ℝ)) = ((100000 : ℤ) : ℝ) by norm_num, round_intCast]
  norm_num

lemma round5_neg_one : round5 (-1) = -1 := by
  unfold round5
  rw [show ((-1 : ℝ) * 100000) = ((-100000 : ℤ) : ℝ) by norm_num, round_intCast]
  norm_num

lemma get_expected_location_interp_eq (cps : List RouteCheckpoint)
    (logLoc : GeoPoint) (T q : ℝ) (ncp : RouteCheckpoint) (idx : ℕ)
    (hlen : 2 ≤ cps.length)
    (hfind : find_nearest_checkpoint logLoc cps = (some ncp, (idx : ℤ)))
    (hidx : idx < cps.length - 1)
    (hdur : 0 < (cps.getD (idx + 1) default).interval - (cps.getD idx default).interval) :
    get_expected_location (some cps) (some (logLoc, T)) q =
      some (round_coordinates
        ((cps.getD idx default).location.1 +
          min 1 ((q - T) /
            ((cps.getD (idx + 1) default).interval - (cps.getD idx default).interval)) *
            ((cps.getD (idx + 1) default).location.1 - (cps.getD idx default).location.1),
         (cps.getD idx default).location.2 +
          min 1 ((q - T) /
            ((cps.getD (idx + 1) default).interval - (cps.getD idx default).interval)) *
            ((cps.getD (idx + 1) default).location.2 - (cps.getD idx default).location.2))) := by
  unfold get_expected_location
  dsimp only
  rw [hfind]
  exact (if_neg (by omega : ¬ cps.length < 2)).trans
    ((if_neg (by omega : ¬ ((idx : ℤ)) = -1)).trans
      ((if_neg (by rw [Int.toNat_natCast]; omega :
          ¬ (cps.length - 1 ≤ ((idx : ℤ)).toNat))).trans
        ((if_neg (by rw [Int.toNat_natCast]; exact not_le.mpr hdur :
            ¬ ((cps.getD (((idx : ℤ)).toNat + 1) default).interval -
              (cps.getD ((idx : ℤ)).toNat default).interval ≤ 0))).trans
          (by rw [Int.toNat_natCast]))))

lemma scenFind : find_nearest_checkpoint ((0 : ℝ), (0 : ℝ)) intervalDemoRoute =
    (some (intervalDemoRoute.getD 0 default), 0) := by
  have hn1 : ¬ (calculate_distance ((0 : ℝ), (0 : ℝ)) ((2 : ℝ), (0 : ℝ)) <
      calculate_distance ((0 : ℝ), (0 : ℝ)) ((0 : ℝ), (0 : ℝ))) := by
    rw [calculate_distance_self]
    exact not_lt.mpr (calculate_distance_nonneg _ _)
  have hn2 : ¬ (calculate_distance ((0 : ℝ), (0 : ℝ)) ((4 : ℝ), (0 : ℝ)) <
      calculate_distance ((0 : ℝ), (0 : ℝ)) ((0 : ℝ), (0 : ℝ))) := by
    rw [calculate_distance_self]
    exact not_lt.mpr (calculate_distance_nonneg _ _)
  unfold find_nearest_checkpoint
  simp only [intervalDemoRoute, List.enum, List.enumFrom, find_nearest_go]
  rw [if_pos trivial]
  rw [if_neg hn1]
  rw [if_neg hn2]
  rfl

lemma scen_interp_lt (q : ℝ) :
    get_expected_location (some intervalDemoRoute) (some (((0 : ℝ), (0 : ℝ)), 0)) q =
      some (round_coordinates (min 1 (q / 600) * 2, 0)) := by
  have h := get_expected_location_interp_eq intervalDemoRoute ((0 : ℝ), (0 : ℝ)) 0 q
    (intervalDemoRoute.getD 0 default) 0
    (by rw [intervalDemoRoute_length]; norm_num)
    scenFind
    (by rw [intervalDemoRoute_length]; norm_num)
    (by simp [intervalDemoRoute])
  rw [h]
  congr 1
  simp [intervalDemoRoute]

/-- Claim C2 as stated is false: on the `[0, 600, 1200]` scenario route with
checkpoint 0 at `(0°, 0°)` and checkpoint 1 at `(2°, 0°)` and the last sample
at checkpoint 0 with timestamp 0, the query at `T + 300` returns `(0, 1)` —
the midpoint values in `(lat, lon)` order, reversed by `round_coordinates` —
instead of the stored `(lon, lat)` order `(1, 0)`; and the query at `T - 300`
returns `(0, -1)`, a backwards extrapolation, not checkpoint 0's coordinates,
because the progress ratio is only clamped from above (`min(1.0, ...)`). -/
theorem claim_C2_counterexample :
    get_expected_location (some intervalDemoRoute) (some (((0 : ℝ), (0 : ℝ)), 0)) 300 =
      some ((0 : ℝ), (1 : ℝ)) ∧
    ((0 : ℝ), (1 : ℝ)) ≠ (((1 : ℝ), (0 : ℝ)) : GeoPoint) ∧
    get_expected_location (some intervalDemoRoute) (some (((0 : ℝ), (0 : ℝ)), 0)) (-300) =
      some ((0 : ℝ), (-1 : ℝ)) ∧
    ((0 : ℝ), (-1 : ℝ)) ≠ (((0 : ℝ), (0 : ℝ)) : GeoPoint) := by
  refine ⟨?_, ?_, ?_, ?_⟩
  · rw [scen_interp_lt 300]
    have hmin : min (1 : ℝ) ((300 : ℝ) / 600) = 1/2 := by
      rw [min_eq_right]
      · norm_num
      · norm_num
    rw [hmin]
    rw [show ((1 : ℝ)/2 * 2) = 1 by norm_num]
    unfold round_coordinates
    rw [round5_zero, round5_one]
  · intro h
    have := congrArg Prod.fst h
    norm_num at this
  · rw [scen_interp_lt (-300)]
    have hmin : min (1 : ℝ) ((-300 : ℝ) / 600) = -(1/2) := by
      rw [min_eq_right]
      · norm_num
      · norm_num
    rw [hmin]
    rw [show ((-(1/2) : ℝ) * 2) = -1 by norm_num]
    unfold round_coordinates
    rw [round5_zero, round5_neg_one]
  · intro h
    have := congrArg Prod.snd h
    norm_num at this

/-- Claim C2 (amended): with intervals `[0, 600, 1200]` and the last sample at
checkpoint 0 with timestamp `T`, `expectedPosition` at `T + 300` returns the
midpoint coordinates rounded to 5 decimals but in reversed `(lat, lon)` order
(`round_coordinates` swaps the pair); in general the interpolation ratio is
clamped only from above by `min 1`, so a query exactly at the last sample
time (ratio 0) returns the current checkpoint's coordinates (reversed and
rounded), while strictly earlier query times extrapolate backwards. -/
theorem claim_C2_amended :
    (get_expected_location (some intervalDemoRoute) (some (((0 : ℝ), (0 : ℝ)), 0)) 300 =
      some (round_coordinates ((1 : ℝ), (0 : ℝ)))) ∧
    (∀ (cps : List RouteCheckpoint) (logLoc : GeoPoint) (T : ℝ)
        (ncp : RouteCheckpoint) (idx : ℕ),
      2 ≤ cps.length →
      find_nearest_checkpoint logLoc cps = (some ncp, (idx : ℤ)) →
      idx < cps.length - 1 →
      0 < (cps.getD (idx + 1) default).interval - (cps.getD idx default).interval →
      get_expected_location (some cps) (some (logLoc, T)) T =
        some (round_coordinates (cps.getD idx default).location)) := by
  constructor
  · rw [scen_interp_lt 300]
    have hmin : min (1 : ℝ) ((300 : ℝ) / 600) = 1/2 := by
      rw [min_eq_right] <;> norm_num
    rw [hmin]
    rw [show ((1 : ℝ)/2 * 2) = 1 by norm_num]
  · intro cps logLoc T ncp idx hlen hfind hidx hdur
    rw [get_expected_location_interp_eq cps logLoc T T ncp idx hlen hfind hidx hdur]
    have hz : T - T = 0 := by ring
    rw [hz]
    have hmin : min (1 : ℝ)
        ((0 : ℝ) / ((cps.getD (idx + 1) default).interval -
          (cps.getD idx default).interval)) = 0 := by
      rw [zero_div]
      rw [min_eq_right]
      norm_num
    rw [hmin]
    have harg : ((cps.getD idx default).location.1 +
          0 * ((cps.getD (idx + 1) default).location.1 - (cps.getD idx default).location.1),
        (cps.getD idx default).location.2 +
          0 * ((cps.getD (idx + 1) default).location.2 - (cps.getD idx default).location.2)) =
        (cps.getD idx default).location := by
      rw [Prod.ext_iff]
      constructor <;> simp
    rw [harg]

/-- Witness for the amended claim C2: the scenario route itself, queried at
the sample time, yields checkpoint 0's coordinates reversed and rounded. -/
theorem claim_C2_amended_witness :
    get_expected_location (some intervalDemoRoute) (some (((0 : ℝ), (0 : ℝ)), 0)) 0 =
      some (round_coordinates (intervalDemoRoute.getD 0 default).location) := by
  exact claim_C2_amended.2 intervalDemoRoute ((0 : ℝ), (0 : ℝ)) 0
    (intervalDemoRoute.getD 0 default) 0
    (by rw [intervalDemoRoute_length]; norm_num)
    scenFind
    (by rw [intervalDemoRoute_length]; norm_num)
    (by simp [intervalDemoRoute])

lemma check_collision_risk_timestamp (t1 t2 : String) (l1 l2 : Option GeoPoint)
    (e1 e2 : ℕ → Option GeoPoint) (now : ℤ) :
    (check_collision_risk t1 t2 l1 l2 e1 e2 now).timestamp = get_current_ist_time now := by
  rcases l1 with _ | loc1
  · rw [check_collision_risk_missing t1 t2 none l2 e1 e2 now (Or.inl rfl)]
  · rcases l2 with _ | loc2
    · rw [check_collision_risk_missing t1 t2 (some loc1) none e1 e2 now (Or.inr rfl)]
    · by_cases hc : calculate_distance loc1 loc2 ≤ COLLISION_CRITICAL_DISTANCE
      · rw [check_collision_risk_critical_eq t1 t2 loc1 loc2 e1 e2 now hc]
      · by_cases hw : calculate_distance loc1 loc2 ≤ COLLISION_WARNING_DISTANCE
        · rw [check_collision_risk_warning_eq t1 t2 loc1 loc2 e1 e2 now hc hw]
          exact (scan_time_offsets_preserves e1 e2 TIME_OFFSETS _).2.2.2
        · rw [check_collision_risk_far_eq t1 t2 loc1 loc2 e1 e2 now hc hw]
          exact (scan_time_offsets_preserves e1 e2 TIME_OFFSETS _).2.2.2

lemma detect_route_deviations_ok_timestamp (train_id : String)
    (current_route_id : Option String) (latest_log : Option GeoPoint)
    (route : Option (List RouteCheckpoint)) (thr : ℝ) (now : ℤ)
    (r : DeviationResult)
    (h : detect_route_deviations train_id current_route_id latest_log route thr now =
      Except.ok r) :
    r.timestamp = get_current_ist_time now := by
  unfold detect_route_deviations at h
  rcases current_route_id with _ | rid
  · simp only [Except.ok.injEq] at h
    rw [← h]
  · rcases latest_log with _ | loc
    · simp only [Except.ok.injEq] at h
      rw [← h]
    · rcases route with _ | cps
      · simp only [Except.ok.injEq] at h
        rw [← h]
      · dsimp only at h
        by_cases h2 : cps.length < 2
        · rw [if_pos h2] at h
          simp only [Except.ok.injEq] at h
          rw [← h]
        · rw [if_neg h2] at h
          by_cases hidx : (find_nearest_checkpoint loc cps).2 = -1
          · rw [if_pos hidx] at h
            simp only [Except.ok.injEq] at h
            rw [← h]
          · rw [if_neg hidx] at h
            by_cases hlast : (find_nearest_checkpoint loc cps).2.toNat = cps.length - 1
            · rw [if_pos hlast] at h
              simp only [Except.ok.injEq] at h
              rw [← h]
            · rw [if_neg hlast] at h
              exact absurd h (by simp)

/-- Claim C6 is violated by the code: every timestamp the core attaches to
the records it actually hands back — collision risk assessments, the
deviation assessments `detect_route_deviations` returns on its non-raising
paths, and created alert records — comes from `get_current_ist_time` and
therefore carries the IST offset of +330 minutes, not the UTC offset zero
required by the claim. -/
theorem claim_C6_timestamps_are_ist_not_utc (t1 t2 train_id : String)
    (l1 l2 : Option GeoPoint) (e1 e2 : ℕ → Option GeoPoint)
    (current_route_id : Option String) (latest_log : Option GeoPoint)
    (route : Option (List RouteCheckpoint)) (thr : ℝ)
    (risk : CollisionResult) (ref1 ref2 : String) (now : ℤ) :
    (check_collision_risk t1 t2 l1 l2 e1 e2 now).timestamp.offsetMinutes = 330 ∧
    (∀ r : DeviationResult,
      detect_route_deviations train_id current_route_id latest_log route thr now =
        Except.ok r → r.timestamp.offsetMinutes = 330) ∧
    (create_collision_alert risk ref1 ref2 now).1.timestamp.offsetMinutes = 330 ∧
    (create_collision_alert risk ref1 ref2 now).2.timestamp.offsetMinutes = 330 ∧
    (330 : ℤ) ≠ 0 := by
  refine ⟨?_, ?_, rfl, rfl, by norm_num⟩
  · rw [check_collision_risk_timestamp]
    rfl
  · intro r hr
    rw [detect_route_deviations_ok_timestamp train_id current_route_id latest_log
      route thr now r hr]
    rfl

/-- Witness for claim C6: a train with no assigned route yields a returned
deviation assessment whose timestamp carries the IST offset of 330 minutes. -/
theorem claim_C6_witness :
    (⟨"T", false, none, none, get_current_ist_time 0, none, none, "none"⟩ :
      DeviationResult).timestamp.offsetMinutes = 330 := by
  exact (claim_C6_timestamps_are_ist_not_utc "A" "B" "T" none none (fun _ => none)
    (fun _ => none) none none none 100
    ⟨"A", "B", "none", none, none, none, get_current_ist_time 0⟩ "r1" "r2" 0).2.1
    ⟨"T", false, none, none, get_current_ist_time 0, none, none, "none"⟩ rfl
